import Mathlib

/-!
Verification development for the phoebe_phitter MCMC fitting layer
(src/mcmc_fit.py and src/phitter/mcmc_fit_bb_wRV.py).

The two fitter classes `mcmc_fitter_rad_interp` and `mcmc_fitter_bb` are
shallowly embedded.  Python/numpy floating-point values are modelled by the
extended type `EF` below: a finite rational, plus positive/negative infinity
and NaN, with numpy arithmetic and comparison semantics (NaN propagates
through arithmetic and makes every comparison false).  Overflow and rounding
are not modelled (values are exact rationals); the claims under study concern
control flow, finiteness, sentinel handling and index bookkeeping, none of
which depend on rounding.

External collaborators that live outside src/ (phoebe_phitter.lc_calc,
lc_calc_wRV, isoc_interp, blackbody_params) are modelled as opaque function
fields of the fitter structures, except for the phase folder `phased_obs`,
which is modelled from the spec (see `foldSpec`).
-/

/-- Extended float value: finite rational, infinities, or NaN.
Models a Python / numpy float64 at exact-real precision. -/
inductive EF where
  | fin : ℚ → EF
  | pinf : EF
  | ninf : EF
  | nan : EF
deriving DecidableEq, Repr

namespace EF

/-- Negation, IEEE-style: negation of NaN is NaN. -/
def neg : EF → EF
  | fin q => fin (-q)
  | pinf => ninf
  | ninf => pinf
  | nan => nan

/-- Addition with numpy semantics: NaN propagates, inf + (-inf) = NaN. -/
def add : EF → EF → EF
  | nan, _ => nan
  | _, nan => nan
  | pinf, ninf => nan
  | ninf, pinf => nan
  | pinf, _ => pinf
  | _, pinf => pinf
  | ninf, _ => ninf
  | _, ninf => ninf
  | fin a, fin b => fin (a + b)

/-- Subtraction: `a - b = a + (-b)` (IEEE-consistent). -/
def sub (a b : EF) : EF := add a (neg b)

/-- Multiplication with numpy semantics: NaN propagates, 0 * inf = NaN. -/
def mul : EF → EF → EF
  | nan, _ => nan
  | _, nan => nan
  | fin a, fin b => fin (a * b)
  | fin a, pinf => if 0 < a then pinf else if a < 0 then ninf else nan
  | fin a, ninf => if 0 < a then ninf else if a < 0 then pinf else nan
  | pinf, fin b => if 0 < b then pinf else if b < 0 then ninf else nan
  | ninf, fin b => if 0 < b then ninf else if b < 0 then pinf else nan
  | pinf, pinf => pinf
  | pinf, ninf => ninf
  | ninf, pinf => ninf
  | ninf, ninf => pinf

/-- Division with numpy semantics: NaN propagates, x/0 is ±inf (sign of x) or
NaN for 0/0, finite/inf is 0, inf/inf is NaN. -/
def div : EF → EF → EF
  | nan, _ => nan
  | _, nan => nan
  | fin a, fin b =>
      if b = 0 then (if 0 < a then pinf else if a < 0 then ninf else nan)
      else fin (a / b)
  | fin _, pinf => fin 0
  | fin _, ninf => fin 0
  | pinf, fin b => if b < 0 then ninf else pinf
  | ninf, fin b => if b < 0 then pinf else ninf
  | pinf, pinf => nan
  | pinf, ninf => nan
  | ninf, pinf => nan
  | ninf, ninf => nan

/-- Square, as used by `x**2.` in the source. -/
def sq (a : EF) : EF := mul a a

/-- Python `<=` on floats: any comparison involving NaN is False. -/
def le : EF → EF → Bool
  | nan, _ => false
  | _, nan => false
  | ninf, _ => true
  | _, ninf => false
  | _, pinf => true
  | pinf, _ => false
  | fin a, fin b => decide (a ≤ b)

/-- Python `<` on floats: any comparison involving NaN is False. -/
def lt : EF → EF → Bool
  | nan, _ => false
  | _, nan => false
  | pinf, _ => false
  | _, pinf => true
  | _, ninf => false
  | ninf, _ => true
  | fin a, fin b => decide (a < b)

/-- Python `==` on floats: NaN is not equal to anything, including itself. -/
def feq : EF → EF → Bool
  | fin a, fin b => decide (a = b)
  | pinf, pinf => true
  | ninf, ninf => true
  | _, _ => false

/-- `np.isfinite`: true exactly on finite values (false on NaN and ±inf). -/
def isfinite : EF → Bool
  | fin _ => true
  | _ => false

/-- `np.isnan`. -/
def isNan : EF → Bool
  | nan => true
  | _ => false

/-- `np.abs` on extended floats: |NaN| = NaN, |±inf| = +inf. -/
def eabs : EF → EF
  | fin q => fin |q|
  | nan => nan
  | _ => pinf

/-- `np.max` of two values: NaN propagates. -/
def emax (a b : EF) : EF :=
  if a = nan ∨ b = nan then nan else if le a b then b else a

/-- Python-style floating modulo `a % b` (sign of the divisor); on numpy,
`mod` involving an infinity or NaN, or a zero divisor, gives NaN. -/
def emod : EF → EF → EF
  | fin a, fin b => if b = 0 then nan else fin (a - b * ⌊a / b⌋)
  | _, _ => nan

end EF

/-- Chained Python bound check `lo <= x <= hi` against rational configuration
bounds (false whenever `x` is NaN). -/
def inBoundsQ (lo hi : ℚ) (x : EF) : Bool :=
  EF.le (.fin lo) x && EF.le x (.fin hi)

/-- `x` lies strictly outside the bound `[lo, hi]` (so `x` is comparable,
i.e. not NaN, and beyond one of the two edges). -/
def strictOut (lo hi : ℚ) (x : EF) : Bool :=
  EF.lt x (.fin lo) || EF.lt (.fin hi) x

/-- Failure-sentinel test `arr[0] == -1.` used throughout the source; on an
empty array the head defaults to NaN, which compares unequal. -/
def sentinelHead (l : List EF) : Bool :=
  EF.feq (l.headD EF.nan) (EF.fin (-1))

/-- Numpy fancy indexing `arr[inds]`; out-of-range positions give NaN
(the source never produces them on well-formed data). -/
def gatherEF (l : List EF) (inds : List ℕ) : List EF :=
  inds.map (fun i => l.getD i EF.nan)

/-- Fancy indexing on a rational (timestamp) array. -/
def gatherQ (l : List ℚ) (inds : List ℕ) : List ℚ :=
  inds.map (fun i => l.getD i 0)

/-- `np.where(np.logical_not(np.isnan(obs)))`: the positions of the non-NaN
entries, in increasing order. -/
def nanFilt : List EF → List ℕ
  | [] => []
  | x :: xs =>
      if x.isNan then (nanFilt xs).map (· + 1)
      else 0 :: (nanFilt xs).map (· + 1)

/-- `np.sum((obs - model)**2. / (errs)**2.)`: the chi-square sum of one
band/role.  Summation order is immaterial at exact-real precision. -/
def chi2Sum : List EF → List EF → List EF → EF
  | o :: os, m :: ms, e :: es =>
      EF.add (EF.div (EF.sq (EF.sub o m)) (EF.sq e)) (chi2Sum os ms es)
  | _, _, _ => EF.fin 0

/-- The spec's formula for one band/role of the likelihood: the chi-square
sum restricted to the observations that are not NaN
("Observations with a missing/undefined value (not-a-number) are excluded
from the sum per role, per call"). -/
def specRoleChi2 : List EF → List EF → List EF → EF
  | o :: os, m :: ms, e :: es =>
      if o.isNan then specRoleChi2 os ms es
      else EF.add (EF.div (EF.sq (EF.sub o m)) (EF.sq e)) (specRoleChi2 os ms es)
  | _, _, _ => EF.fin 0

/-- Stable insertion into a sorted list (helper for `sortBy`). -/
def insertBy {α : Type} (r : α → α → Bool) (x : α) : List α → List α
  | [] => [x]
  | y :: ys => if r x y then x :: y :: ys else y :: insertBy r x ys

/-- Stable insertion sort by a boolean relation. -/
def sortBy {α : Type} (r : α → α → Bool) : List α → List α
  | [] => []
  | x :: xs => insertBy r x (sortBy r xs)

/-- Collapse adjacent duplicates of an ascending list (helper for `npUnique`). -/
def dedupSorted : List ℚ → List ℚ
  | [] => []
  | [x] => [x]
  | x :: y :: rest =>
      if x = y then dedupSorted (y :: rest) else x :: dedupSorted (y :: rest)

/-- `np.unique`: the sorted list of distinct values. -/
def npUnique (l : List ℚ) : List ℚ :=
  dedupSorted (sortBy (fun a b => decide (a ≤ b)) l)

/-- Ordering used to argsort by phase key, NaN keys last (numpy's argsort
places NaN at the end). -/
def phaseKeyLE (x y : EF) : Bool :=
  if y = EF.nan then true else if x = EF.nan then false else EF.le x y

/-- Argsort of a list of phase keys: the stable permutation of positions that
puts the keys in ascending order. -/
def argsortPhase (phases : List EF) : List ℕ :=
  sortBy (fun i j => phaseKeyLE (phases.getD i EF.nan) (phases.getD j EF.nan))
    (List.range phases.length)

/-- Modelled from the spec: the Phase Folder collaborator
`lc_calc.phased_obs` / `lc_calc_wRV.phased_obs` lives outside src/.
Per spec section 4.5 the folding rule is
`phase = ((t - t0) mod period) / period` with a true (non-negative-remainder)
modulo, and the returned sort permutation orders the samples by ascending
phase.  The returned triple is (phase per input time, sort permutation,
time-since-t0 in days in sorted order); the likelihood code in src/ consumes
only the sort permutation. -/
def foldSpec (times : List ℚ) (period t0 : EF) : List EF × List ℕ × List EF :=
  let phases := times.map (fun t => EF.div (EF.emod (EF.sub (.fin t) t0) period) period)
  let inds := argsortPhase phases
  let since := times.map (fun t => EF.sub (.fin t) t0)
  (phases, inds, gatherEF since inds)

/-! ## The radius-interpolation fitter (src/mcmc_fit.py, `mcmc_fitter_rad_interp`)

The type parameter `P` stands for the opaque `star_params_lcfit` payload that
the isochrone interpolation collaborator produces and the light-curve
collaborators consume. -/

/-- The 7-tuple `star_params_all` returned by `isochrone.rad_interp`
(mass_init, mass, rad, lum, teff, mag_Kp, mag_H). -/
structure RadStarAll where
  mass_init : EF
  mass : EF
  rad : EF
  lum : EF
  teff : EF
  mag_Kp : EF
  mag_H : EF

/-- Configuration, observation state and external collaborators of
`mcmc_fitter_rad_interp`.  Fields named after the Python attributes.
`kp_h_ext_pow` stands for the constant `(lambda_Kp / lambda_H)**ext_alpha`
and `Kp_ext`, `H_ext` for the values `make_isochrone` stores (their
power-law computation involves the same constants and is configuration,
not per-call logic). -/
structure RadFitter (P : Type) where
  model_eccentricity : Bool
  lo_Kp_ext_prior_bound : ℚ
  hi_Kp_ext_prior_bound : ℚ
  lo_H_ext_mod_prior_bound : ℚ
  hi_H_ext_mod_prior_bound : ℚ
  lo_inc_prior_bound : ℚ
  hi_inc_prior_bound : ℚ
  lo_period_prior_bound : ℚ
  hi_period_prior_bound : ℚ
  lo_ecc_prior_bound : ℚ
  hi_ecc_prior_bound : ℚ
  lo_t0_prior_bound : ℚ
  hi_t0_prior_bound : ℚ
  iso_rad_min : ℚ
  iso_rad_max : ℚ
  Kp_ext : ℚ
  H_ext : ℚ
  kp_h_ext_pow : ℚ
  use_blackbody_atm : Bool
  model_numTriangles : ℕ
  dist : ℚ
  Kp_observation_times : List ℚ
  H_observation_times : List ℚ
  kp_obs_mags : List EF
  kp_obs_mag_errors : List EF
  h_obs_mags : List EF
  h_obs_mag_errors : List EF
  rad_interp : EF → RadStarAll × P
  single_star_lc : P → Bool → ℕ → List EF × List EF
  dist_ext_mag_calc : List EF × List EF → ℚ → ℚ → ℚ → List EF × List EF
  binary_star_lc :
    P → P → EF × EF × EF × EF → List ℚ × List ℚ → Bool → ℕ → List EF × List EF
  flux_adj :
    List EF × List EF → EF × EF → List EF × List EF → EF × EF →
    List EF × List EF → List EF × List EF

/-- The named components extracted from theta by the rad-interp fitter. -/
structure RadTheta where
  Kp_ext : EF
  H_ext_mod : EF
  star1_rad : EF
  star2_rad : EF
  binary_inc : EF
  binary_period : EF
  binary_ecc : EF
  t0 : EF

/-- The tuple unpacking at the top of `lnprior`, `calculate_model_lc` and
`lnlike` (identical in all three): an 8-tuple when `model_eccentricity`,
else a 7-tuple with the eccentricity left at the initial `0.` assignment. -/
def unpackRad (model_ecc : Bool) (θ : List EF) : RadTheta :=
  if model_ecc then
    { Kp_ext := θ.getD 0 .nan, H_ext_mod := θ.getD 1 .nan,
      star1_rad := θ.getD 2 .nan, star2_rad := θ.getD 3 .nan,
      binary_inc := θ.getD 4 .nan, binary_period := θ.getD 5 .nan,
      binary_ecc := θ.getD 6 .nan, t0 := θ.getD 7 .nan }
  else
    { Kp_ext := θ.getD 0 .nan, H_ext_mod := θ.getD 1 .nan,
      star1_rad := θ.getD 2 .nan, star2_rad := θ.getD 3 .nan,
      binary_inc := θ.getD 4 .nan, binary_period := θ.getD 5 .nan,
      binary_ecc := .fin 0, t0 := θ.getD 6 .nan }

/-- The expected theta length of the rad-interp fitter (8 free parameters,
7 when eccentricity is not modelled). -/
def radThetaLen (f : RadFitter P) : ℕ := if f.model_eccentricity then 8 else 7

/-- `mcmc_fitter_rad_interp.lnprior` (src/mcmc_fit.py lines 156-196). -/
def radLnprior (f : RadFitter P) (θ : List EF) : EF :=
  let u := unpackRad f.model_eccentricity θ
  let Kp_ext_check := inBoundsQ f.lo_Kp_ext_prior_bound f.hi_Kp_ext_prior_bound u.Kp_ext
  let H_ext_mod_check :=
    inBoundsQ f.lo_H_ext_mod_prior_bound f.hi_H_ext_mod_prior_bound u.H_ext_mod
  let inc_check := inBoundsQ f.lo_inc_prior_bound f.hi_inc_prior_bound u.binary_inc
  let period_check := inBoundsQ f.lo_period_prior_bound f.hi_period_prior_bound u.binary_period
  let ecc_check := inBoundsQ f.lo_ecc_prior_bound f.hi_ecc_prior_bound u.binary_ecc
  let t0_check := inBoundsQ f.lo_t0_prior_bound f.hi_t0_prior_bound u.t0
  let rad_check :=
    EF.le u.star2_rad u.star1_rad &&
    inBoundsQ f.iso_rad_min f.iso_rad_max u.star1_rad &&
    inBoundsQ f.iso_rad_min f.iso_rad_max u.star2_rad
  if Kp_ext_check && H_ext_mod_check && inc_check && period_check &&
     ecc_check && t0_check && rad_check
  then .fin 0 else .ninf

/-- The `err_out = (np.array([-1.]), np.array([-1.]))` failure value of
`calculate_model_lc`. -/
def radErrOut : List EF × List EF := ([EF.fin (-1)], [EF.fin (-1)])

/-- `mcmc_fitter_rad_interp.calculate_model_lc` (src/mcmc_fit.py lines
199-302): interpolation, two single-star reference runs, the binary run,
each model run checked for the `-1.` sentinel; then distance/extinction
corrections, flux recalibration and the extinction adjustment. -/
def radCalcModelLc (f : RadFitter P) (θ : List EF) : List EF × List EF :=
  let u := unpackRad f.model_eccentricity θ
  let binary_params := (u.binary_period, u.binary_ecc, u.binary_inc, u.t0)
  let Kp_ext_adj := EF.sub u.Kp_ext (.fin f.Kp_ext)
  let H_ext_adj :=
    EF.add (EF.sub (EF.mul u.Kp_ext (.fin f.kp_h_ext_pow)) (.fin f.H_ext)) u.H_ext_mod
  let star1_interp := f.rad_interp u.star1_rad
  let star2_interp := f.rad_interp u.star2_rad
  let s1 := f.single_star_lc star1_interp.2 f.use_blackbody_atm f.model_numTriangles
  if sentinelHead s1.1 || sentinelHead s1.2 then radErrOut else
  let s2 := f.single_star_lc star2_interp.2 f.use_blackbody_atm f.model_numTriangles
  if sentinelHead s2.1 || sentinelHead s2.2 then radErrOut else
  let s1d := f.dist_ext_mag_calc s1 f.dist f.Kp_ext f.H_ext
  let s2d := f.dist_ext_mag_calc s2 f.dist f.Kp_ext f.H_ext
  let bin :=
    f.binary_star_lc star1_interp.2 star2_interp.2 binary_params
      (f.Kp_observation_times, f.H_observation_times)
      f.use_blackbody_atm f.model_numTriangles
  if sentinelHead bin.1 || sentinelHead bin.2 then radErrOut else
  let bind := f.dist_ext_mag_calc bin f.dist f.Kp_ext f.H_ext
  let binf :=
    f.flux_adj s1d (star1_interp.1.mag_Kp, star1_interp.1.mag_H)
      s2d (star2_interp.1.mag_Kp, star2_interp.1.mag_H)
      bind
  (binf.1.map (fun x => EF.add x Kp_ext_adj), binf.2.map (fun x => EF.add x H_ext_adj))

/-- `mcmc_fitter_rad_interp.lnlike` (src/mcmc_fit.py lines 305-343),
instrumented with a flag recording whether the chi-square sums were
computed (false on the sentinel short-circuit). -/
def radLnlikeInstr (f : RadFitter P) (θ : List EF) : EF × Bool :=
  let u := unpackRad f.model_eccentricity θ
  let out := radCalcModelLc f θ
  if sentinelHead out.1 || sentinelHead out.2 then (.ninf, false) else
  let kp_out := foldSpec f.Kp_observation_times u.binary_period u.t0
  let h_out := foldSpec f.H_observation_times u.binary_period u.t0
  let kp_inds := kp_out.2.1
  let h_inds := h_out.2.1
  let ll :=
    EF.add
      (chi2Sum (gatherEF f.kp_obs_mags kp_inds) out.1 (gatherEF f.kp_obs_mag_errors kp_inds))
      (chi2Sum (gatherEF f.h_obs_mags h_inds) out.2 (gatherEF f.h_obs_mag_errors h_inds))
  (EF.mul (.fin (-(1 : ℚ)/2)) ll, true)

/-- `mcmc_fitter_rad_interp.lnlike`: the returned value. -/
def radLnlike (f : RadFitter P) (θ : List EF) : EF := (radLnlikeInstr f θ).1

/-- `mcmc_fitter_rad_interp.lnprob` (src/mcmc_fit.py lines 346-350),
instrumented with a flag recording whether `lnlike` (and hence the forward
model) was invoked. -/
def radLnprobInstr (f : RadFitter P) (θ : List EF) : EF × Bool :=
  let lp := radLnprior f θ
  if !lp.isfinite then (.ninf, false)
  else (EF.add lp (radLnlike f θ), true)

/-- `mcmc_fitter_rad_interp.lnprob`: the returned value.  Note there is no
finiteness check on the likelihood in this variant. -/
def radLnprob (f : RadFitter P) (θ : List EF) : EF := (radLnprobInstr f θ).1

/-! ## The blackbody/RV fitter (src/phitter/mcmc_fit_bb_wRV.py, `mcmc_fitter_bb`) -/

/-- Role labels of the flat observation arrays (`self.obs_filts`). -/
inductive ObsFilt where
  | kp : ObsFilt
  | h : ObsFilt
  | rv_pri : ObsFilt
  | rv_sec : ObsFilt
deriving DecidableEq, Repr

/-- The `model_*` toggles that control which quantities occupy theta slots. -/
structure BBToggles where
  model_H_ext_mod : Bool
  model_star1_mass : Bool
  model_star1_rad : Bool
  model_star1_teff : Bool
  model_star2_mass : Bool
  model_star2_rad : Bool
  model_star2_teff : Bool
  model_eccentricity : Bool
  model_distance : Bool
deriving DecidableEq, Repr

/-- The slot assignment a traversal of theta produces: for each named
quantity the consumed slot (`none` = fixed at default), plus the total
number of slots consumed. -/
structure BBLayout where
  kp_ext : ℕ
  h_ext_mod : Option ℕ
  star1_mass : Option ℕ
  star1_rad : Option ℕ
  star1_teff : Option ℕ
  star2_mass : Option ℕ
  star2_rad : Option ℕ
  star2_teff : Option ℕ
  binary_inc : ℕ
  binary_period : ℕ
  binary_rv_sys : ℕ
  binary_ecc : Option ℕ
  binary_dist : Option ℕ
  t0 : ℕ
  total : ℕ
deriving DecidableEq, Repr

/-- The theta traversal at the top of `mcmc_fitter_bb.lnprior`
(src/phitter/mcmc_fit_bb_wRV.py lines 319-393): a running `theta_index`,
advanced once per modelled quantity. -/
def bbLnpriorLayout (t : BBToggles) : BBLayout :=
  let theta_index := 0
  let kp_ext := theta_index
  let theta_index := theta_index + 1
  let (h_ext_mod, theta_index) :=
    if t.model_H_ext_mod then (some theta_index, theta_index + 1) else (none, theta_index)
  let (star1_mass, theta_index) :=
    if t.model_star1_mass then (some theta_index, theta_index + 1) else (none, theta_index)
  let (star1_rad, theta_index) :=
    if t.model_star1_rad then (some theta_index, theta_index + 1) else (none, theta_index)
  let (star1_teff, theta_index) :=
    if t.model_star1_teff then (some theta_index, theta_index + 1) else (none, theta_index)
  let (star2_mass, theta_index) :=
    if t.model_star2_mass then (some theta_index, theta_index + 1) else (none, theta_index)
  let (star2_rad, theta_index) :=
    if t.model_star2_rad then (some theta_index, theta_index + 1) else (none, theta_index)
  let (star2_teff, theta_index) :=
    if t.model_star2_teff then (some theta_index, theta_index + 1) else (none, theta_index)
  let binary_inc := theta_index
  let theta_index := theta_index + 1
  let binary_period := theta_index
  let theta_index := theta_index + 1
  let binary_rv_sys := theta_index
  let theta_index := theta_index + 1
  let (binary_ecc, theta_index) :=
    if t.model_eccentricity then (some theta_index, theta_index + 1) else (none, theta_index)
  let (binary_dist, theta_index) :=
    if t.model_distance then (some theta_index, theta_index + 1) else (none, theta_index)
  let t0 := theta_index
  { kp_ext := kp_ext, h_ext_mod := h_ext_mod,
    star1_mass := star1_mass, star1_rad := star1_rad, star1_teff := star1_teff,
    star2_mass := star2_mass, star2_rad := star2_rad, star2_teff := star2_teff,
    binary_inc := binary_inc, binary_period := binary_period,
    binary_rv_sys := binary_rv_sys, binary_ecc := binary_ecc,
    binary_dist := binary_dist, t0 := t0, total := theta_index + 1 }

/-- The theta traversal at the top of `mcmc_fitter_bb.calculate_model_obs`
(src/phitter/mcmc_fit_bb_wRV.py lines 551-625); the attached astropy units
do not affect slot consumption. -/
def bbCalcModelObsLayout (t : BBToggles) : BBLayout :=
  let theta_index := 0
  let kp_ext := theta_index
  let theta_index := theta_index + 1
  let (h_ext_mod, theta_index) :=
    if t.model_H_ext_mod then (some theta_index, theta_index + 1) else (none, theta_index)
  let (star1_mass, theta_index) :=
    if t.model_star1_mass then (some theta_index, theta_index + 1) else (none, theta_index)
  let (star1_rad, theta_index) :=
    if t.model_star1_rad then (some theta_index, theta_index + 1) else (none, theta_index)
  let (star1_teff, theta_index) :=
    if t.model_star1_teff then (some theta_index, theta_index + 1) else (none, theta_index)
  let (star2_mass, theta_index) :=
    if t.model_star2_mass then (some theta_index, theta_index + 1) else (none, theta_index)
  let (star2_rad, theta_index) :=
    if t.model_star2_rad then (some theta_index, theta_index + 1) else (none, theta_index)
  let (star2_teff, theta_index) :=
    if t.model_star2_teff then (some theta_index, theta_index + 1) else (none, theta_index)
  let binary_inc := theta_index
  let theta_index := theta_index + 1
  let binary_period := theta_index
  let theta_index := theta_index + 1
  let binary_rv_sys := theta_index
  let theta_index := theta_index + 1
  let (binary_ecc, theta_index) :=
    if t.model_eccentricity then (some theta_index, theta_index + 1) else (none, theta_index)
  let (binary_dist, theta_index) :=
    if t.model_distance then (some theta_index, theta_index + 1) else (none, theta_index)
  let t0 := theta_index
  { kp_ext := kp_ext, h_ext_mod := h_ext_mod,
    star1_mass := star1_mass, star1_rad := star1_rad, star1_teff := star1_teff,
    star2_mass := star2_mass, star2_rad := star2_rad, star2_teff := star2_teff,
    binary_inc := binary_inc, binary_period := binary_period,
    binary_rv_sys := binary_rv_sys, binary_ecc := binary_ecc,
    binary_dist := binary_dist, t0 := t0, total := theta_index + 1 }

/-- The theta traversal at the top of `mcmc_fitter_bb.lnlike`
(src/phitter/mcmc_fit_bb_wRV.py lines 704-778). -/
def bbLnlikeLayout (t : BBToggles) : BBLayout :=
  let theta_index := 0
  let kp_ext := theta_index
  let theta_index := theta_index + 1
  let (h_ext_mod, theta_index) :=
    if t.model_H_ext_mod then (some theta_index, theta_index + 1) else (none, theta_index)
  let (star1_mass, theta_index) :=
    if t.model_star1_mass then (some theta_index, theta_index + 1) else (none, theta_index)
  let (star1_rad, theta_index) :=
    if t.model_star1_rad then (some theta_index, theta_index + 1) else (none, theta_index)
  let (star1_teff, theta_index) :=
    if t.model_star1_teff then (some theta_index, theta_index + 1) else (none, theta_index)
  let (star2_mass, theta_index) :=
    if t.model_star2_mass then (some theta_index, theta_index + 1) else (none, theta_index)
  let (star2_rad, theta_index) :=
    if t.model_star2_rad then (some theta_index, theta_index + 1) else (none, theta_index)
  let (star2_teff, theta_index) :=
    if t.model_star2_teff then (some theta_index, theta_index + 1) else (none, theta_index)
  let binary_inc := theta_index
  let theta_index := theta_index + 1
  let binary_period := theta_index
  let theta_index := theta_index + 1
  let binary_rv_sys := theta_index
  let theta_index := theta_index + 1
  let (binary_ecc, theta_index) :=
    if t.model_eccentricity then (some theta_index, theta_index + 1) else (none, theta_index)
  let (binary_dist, theta_index) :=
    if t.model_distance then (some theta_index, theta_index + 1) else (none, theta_index)
  let t0 := theta_index
  { kp_ext := kp_ext, h_ext_mod := h_ext_mod,
    star1_mass := star1_mass, star1_rad := star1_rad, star1_teff := star1_teff,
    star2_mass := star2_mass, star2_rad := star2_rad, star2_teff := star2_teff,
    binary_inc := binary_inc, binary_period := binary_period,
    binary_rv_sys := binary_rv_sys, binary_ecc := binary_ecc,
    binary_dist := binary_dist, t0 := t0, total := theta_index + 1 }

/-- The named quantities the blackbody fitter extracts from theta. -/
structure BBTheta where
  kp_ext : EF
  h_ext_mod : EF
  star1_mass : EF
  star1_rad : EF
  star1_teff : EF
  star2_mass : EF
  star2_rad : EF
  star2_teff : EF
  binary_inc : EF
  binary_period : EF
  binary_rv_sys : EF
  binary_ecc : EF
  binary_dist : EF
  t0 : EF
deriving DecidableEq, Repr

/-- The 8-element `star_params_all` returned by
`bb_params_obj.calc_stellar_params`: (mass_init, mass, rad, lum, teff, logg,
[mag_Kp, mag_H], [pblum_Kp, pblum_H]). -/
structure BBStarAll where
  mass_init : EF
  mass : EF
  rad : EF
  lum : EF
  teff : EF
  logg : EF
  mag_Kp : EF
  mag_H : EF
  pblum_Kp : EF
  pblum_H : EF

/-- Configuration, observation state and external collaborators of
`mcmc_fitter_bb`.  Fields named after the Python attributes; the `*_pow`
fields stand for the constant power-law factors
`(lambda_Kp/lambda_H)**ext_alpha` (mid), `**(ext_alpha + ext_alpha_unc)`
(hi), `**(ext_alpha - ext_alpha_unc)` (lo), and
`(lambda_Ks/lambda_Kp)**ext_alpha`, `(lambda_Ks/lambda_H)**ext_alpha`;
`sqrt2pi` stands for `np.sqrt(2*np.pi)`, and `nplog`/`nplog10` for the math
library's logarithms on positive finite arguments (a positive finite real
always has a finite logarithm). -/
structure BBFitter (P : Type) where
  toggles : BBToggles
  star1_mass_larger : Bool
  star1_rad_larger : Bool
  star1_teff_larger : Bool
  star2_mass_larger : Bool
  star2_rad_larger : Bool
  star2_teff_larger : Bool
  default_H_ext_mod : ℚ
  default_ecc : ℚ
  default_dist : ℚ
  default_star1_mass : ℚ
  default_star1_rad : ℚ
  default_star1_teff : ℚ
  default_star2_mass : ℚ
  default_star2_rad : ℚ
  default_star2_teff : ℚ
  lo_Kp_ext_prior_bound : ℚ
  hi_Kp_ext_prior_bound : ℚ
  lo_H_ext_mod_prior_bound : ℚ
  hi_H_ext_mod_prior_bound : ℚ
  H_ext_mod_alpha_sig_bound : ℚ
  lo_star1_mass_prior_bound : ℚ
  hi_star1_mass_prior_bound : ℚ
  lo_star1_rad_prior_bound : ℚ
  hi_star1_rad_prior_bound : ℚ
  lo_star1_teff_prior_bound : ℚ
  hi_star1_teff_prior_bound : ℚ
  star1_teff_sig_bound : Bool
  star1_teff_bound_mu : ℚ
  star1_teff_bound_sigma : ℚ
  lo_star2_mass_prior_bound : ℚ
  hi_star2_mass_prior_bound : ℚ
  lo_star2_rad_prior_bound : ℚ
  hi_star2_rad_prior_bound : ℚ
  lo_star2_teff_prior_bound : ℚ
  hi_star2_teff_prior_bound : ℚ
  lo_inc_prior_bound : ℚ
  hi_inc_prior_bound : ℚ
  lo_period_prior_bound : ℚ
  hi_period_prior_bound : ℚ
  lo_rv_sys_prior_bound : ℚ
  hi_rv_sys_prior_bound : ℚ
  lo_ecc_prior_bound : ℚ
  hi_ecc_prior_bound : ℚ
  lo_dist_prior_bound : ℚ
  hi_dist_prior_bound : ℚ
  lo_t0_prior_bound : ℚ
  hi_t0_prior_bound : ℚ
  kpH_pow_mid : ℚ
  kpH_pow_hi : ℚ
  kpH_pow_lo : ℚ
  ks_kp_pow : ℚ
  ks_h_pow : ℚ
  sqrt2pi : ℚ
  nplog : ℚ → ℚ
  nplog10 : ℚ → ℚ
  Ks_ext : ℚ
  dist : ℚ
  filts_ext_kp : ℚ
  filts_ext_h : ℚ
  use_blackbody_atm : Bool
  model_numTriangles : ℕ
  irrad_frac_refl : ℚ
  model_compact : Bool
  obs_filts : List ObsFilt
  obs_times : List ℚ
  obs : List EF
  obs_errors : List EF
  calc_stellar_params : EF → EF → EF → BBStarAll × P
  binary_star_lc :
    P → P → EF × EF × EF × EF → List ℚ × List ℚ × List ℚ → Bool → Bool → ℚ → ℕ →
    (List EF × List EF) × List EF × List EF
  dist_ext_mag_calc : List EF × List EF → ℚ → ℚ × ℚ → List EF × List EF

/-- `np.where(obs_filts == label)`: positions carrying a given role label. -/
def whereEq (filts : List ObsFilt) (r : ObsFilt) : List ℕ :=
  (List.range filts.length).filter (fun i => decide (filts.getD i ObsFilt.kp = r))

/-- `self.search_filt_kp`. -/
def bbSearchKp (f : BBFitter P) : List ℕ := whereEq f.obs_filts .kp

/-- `self.search_filt_h`. -/
def bbSearchH (f : BBFitter P) : List ℕ := whereEq f.obs_filts .h

/-- `self.search_filt_rv_pri`. -/
def bbSearchRvPri (f : BBFitter P) : List ℕ := whereEq f.obs_filts .rv_pri

/-- `self.search_filt_rv_sec`. -/
def bbSearchRvSec (f : BBFitter P) : List ℕ := whereEq f.obs_filts .rv_sec

/-- `self.search_filt_rv = np.append(search_filt_rv_pri, search_filt_rv_sec)`. -/
def bbSearchRv (f : BBFitter P) : List ℕ := bbSearchRvPri f ++ bbSearchRvSec f

/-- `self.obs_filts_rv`. -/
def bbObsFiltsRv (f : BBFitter P) : List ObsFilt :=
  (bbSearchRv f).map (fun i => f.obs_filts.getD i ObsFilt.kp)

/-- Kp observation timestamps (`obs_times[search_filt_kp]`). -/
def bbKpTimes (f : BBFitter P) : List ℚ := gatherQ f.obs_times (bbSearchKp f)

/-- H observation timestamps. -/
def bbHTimes (f : BBFitter P) : List ℚ := gatherQ f.obs_times (bbSearchH f)

/-- The RV time grid `np.unique(obs_times[search_filt_rv])`. -/
def bbRvTimes (f : BBFitter P) : List ℚ := npUnique (gatherQ f.obs_times (bbSearchRv f))

/-- The primary role's own observation timestamps
(`obs_times[search_filt_rv_pri]`); computed here for comparison with the
shared grid, the source itself never folds these separately. -/
def bbRvPriTimes (f : BBFitter P) : List ℚ := gatherQ f.obs_times (bbSearchRvPri f)

/-- The secondary role's own observation timestamps. -/
def bbRvSecTimes (f : BBFitter P) : List ℚ := gatherQ f.obs_times (bbSearchRvSec f)

/-- `self.observation_times` as set by `set_observation_times`. -/
def bbObsTimes (f : BBFitter P) : List ℚ × List ℚ × List ℚ :=
  (bbKpTimes f, bbHTimes f, bbRvTimes f)

/-- `self.kp_obs_mags`. -/
def bbKpObsMags (f : BBFitter P) : List EF := gatherEF f.obs (bbSearchKp f)

/-- `self.kp_obs_mag_errors`. -/
def bbKpObsMagErrors (f : BBFitter P) : List EF := gatherEF f.obs_errors (bbSearchKp f)

/-- `self.h_obs_mags`. -/
def bbHObsMags (f : BBFitter P) : List EF := gatherEF f.obs (bbSearchH f)

/-- `self.h_obs_mag_errors`. -/
def bbHObsMagErrors (f : BBFitter P) : List EF := gatherEF f.obs_errors (bbSearchH f)

/-- `self.obs_rv_pri`. -/
def bbObsRvPri (f : BBFitter P) : List EF := gatherEF f.obs (bbSearchRvPri f)

/-- `self.obs_rv_pri_errors`. -/
def bbObsRvPriErrors (f : BBFitter P) : List EF := gatherEF f.obs_errors (bbSearchRvPri f)

/-- `self.obs_rv_sec`. -/
def bbObsRvSec (f : BBFitter P) : List EF := gatherEF f.obs (bbSearchRvSec f)

/-- `self.obs_rv_sec_errors`. -/
def bbObsRvSecErrors (f : BBFitter P) : List EF := gatherEF f.obs_errors (bbSearchRvSec f)

/-- Value of one layout slot: the theta entry at the consumed index, or the
configured default when the quantity is not modelled. -/
def slotVal (θ : List EF) (s : Option ℕ) (d : ℚ) : EF :=
  match s with
  | some i => θ.getD i .nan
  | none => .fin d

/-- The named values a method extracts from theta, given that method's
layout and the fitter's defaults. -/
def bbUnpack (f : BBFitter P) (L : BBLayout) (θ : List EF) : BBTheta :=
  { kp_ext := θ.getD L.kp_ext .nan,
    h_ext_mod := slotVal θ L.h_ext_mod f.default_H_ext_mod,
    star1_mass := slotVal θ L.star1_mass f.default_star1_mass,
    star1_rad := slotVal θ L.star1_rad f.default_star1_rad,
    star1_teff := slotVal θ L.star1_teff f.default_star1_teff,
    star2_mass := slotVal θ L.star2_mass f.default_star2_mass,
    star2_rad := slotVal θ L.star2_rad f.default_star2_rad,
    star2_teff := slotVal θ L.star2_teff f.default_star2_teff,
    binary_inc := θ.getD L.binary_inc .nan,
    binary_period := θ.getD L.binary_period .nan,
    binary_rv_sys := θ.getD L.binary_rv_sys .nan,
    binary_ecc := slotVal θ L.binary_ecc f.default_ecc,
    binary_dist := slotVal θ L.binary_dist f.default_dist,
    t0 := θ.getD L.t0 .nan }

/-- `np.log` lifted to extended floats: log of +inf is +inf, of 0 is -inf,
of a negative value or NaN is NaN, of a positive finite value the (finite)
library logarithm. -/
def nplogEF (f : BBFitter P) : EF → EF
  | .pinf => .pinf
  | .ninf => .nan
  | .nan => .nan
  | .fin q => if 0 < q then .fin (f.nplog q) else if q = 0 then .ninf else .nan

/-- `np.log10` lifted to extended floats, as `nplogEF`. -/
def nplog10EF (f : BBFitter P) : EF → EF
  | .pinf => .pinf
  | .ninf => .nan
  | .nan => .nan
  | .fin q => if 0 < q then .fin (f.nplog10 q) else if q = 0 then .ninf else .nan

/-- `H_ext_mod_bound_oneSig` as computed by `lnprior` (src lines 401-417):
`1.0` in uniform mode, else the larger of the two asymmetric half-widths
derived from the extinction-law uncertainty. -/
def bbOneSig (f : BBFitter P) (kp_ext : EF) : EF :=
  if f.H_ext_mod_alpha_sig_bound = -1 then .fin 1
  else
    let H_ext := EF.mul kp_ext (.fin f.kpH_pow_mid)
    let bound_hi := EF.sub (EF.mul kp_ext (.fin f.kpH_pow_hi)) H_ext
    let bound_lo := EF.sub H_ext (EF.mul kp_ext (.fin f.kpH_pow_lo))
    EF.emax (EF.eabs bound_hi) (EF.eabs bound_lo)

/-- The boolean checks `lnprior` computes (src lines 395-499), grouped as in
the source's final condition. -/
structure BBChecks where
  Kp_ext_check : Bool
  H_ext_mod_check : Bool
  star1_checks : Bool
  star2_checks : Bool
  inc_check : Bool
  period_check : Bool
  rv_sys_check : Bool
  ecc_check : Bool
  dist_check : Bool
  t0_check : Bool

/-- The check computations of `mcmc_fitter_bb.lnprior`: per-quantity bound
checks (skipped for non-modelled quantities, and for `star1_teff` when its
Gaussian mode is on), then the relational `*_larger` constraints folded into
the corresponding star check. -/
def bbChecksOf (f : BBFitter P) (u : BBTheta) : BBChecks :=
  let Kp_ext_check := inBoundsQ f.lo_Kp_ext_prior_bound f.hi_Kp_ext_prior_bound u.kp_ext
  let H_ext_mod_check :=
    if f.H_ext_mod_alpha_sig_bound = -1 then
      inBoundsQ f.lo_H_ext_mod_prior_bound f.hi_H_ext_mod_prior_bound u.h_ext_mod
    else true
  let star1_mass_check :=
    if f.toggles.model_star1_mass then
      inBoundsQ f.lo_star1_mass_prior_bound f.hi_star1_mass_prior_bound u.star1_mass
    else true
  let star1_rad_check :=
    if f.toggles.model_star1_rad then
      inBoundsQ f.lo_star1_rad_prior_bound f.hi_star1_rad_prior_bound u.star1_rad
    else true
  let star1_teff_check :=
    if f.toggles.model_star1_teff && !f.star1_teff_sig_bound then
      inBoundsQ f.lo_star1_teff_prior_bound f.hi_star1_teff_prior_bound u.star1_teff
    else true
  let star2_mass_check :=
    if f.toggles.model_star2_mass then
      inBoundsQ f.lo_star2_mass_prior_bound f.hi_star2_mass_prior_bound u.star2_mass
    else true
  let star2_rad_check :=
    if f.toggles.model_star2_rad then
      inBoundsQ f.lo_star2_rad_prior_bound f.hi_star2_rad_prior_bound u.star2_rad
    else true
  let star2_teff_check :=
    if f.toggles.model_star2_teff then
      inBoundsQ f.lo_star2_teff_prior_bound f.hi_star2_teff_prior_bound u.star2_teff
    else true
  let star1_mass_check :=
    if f.star1_mass_larger then star1_mass_check && EF.lt u.star2_mass u.star1_mass
    else star1_mass_check
  let star1_rad_check :=
    if f.star1_rad_larger then star1_rad_check && EF.lt u.star2_rad u.star1_rad
    else star1_rad_check
  let star1_teff_check :=
    if f.star1_teff_larger then star1_teff_check && EF.lt u.star2_teff u.star1_teff
    else star1_teff_check
  let star2_mass_check :=
    if f.star2_mass_larger then star2_mass_check && EF.lt u.star1_mass u.star2_mass
    else star2_mass_check
  let star2_rad_check :=
    if f.star2_rad_larger then star2_rad_check && EF.lt u.star1_rad u.star2_rad
    else star2_rad_check
  let star2_teff_check :=
    if f.star2_teff_larger then star2_teff_check && EF.lt u.star1_teff u.star2_teff
    else star2_teff_check
  { Kp_ext_check := Kp_ext_check,
    H_ext_mod_check := H_ext_mod_check,
    star1_checks := star1_mass_check && star1_rad_check && star1_teff_check,
    star2_checks := star2_mass_check && star2_rad_check && star2_teff_check,
    inc_check := inBoundsQ f.lo_inc_prior_bound f.hi_inc_prior_bound u.binary_inc,
    period_check := inBoundsQ f.lo_period_prior_bound f.hi_period_prior_bound u.binary_period,
    rv_sys_check := inBoundsQ f.lo_rv_sys_prior_bound f.hi_rv_sys_prior_bound u.binary_rv_sys,
    ecc_check := inBoundsQ f.lo_ecc_prior_bound f.hi_ecc_prior_bound u.binary_ecc,
    dist_check := inBoundsQ f.lo_dist_prior_bound f.hi_dist_prior_bound u.binary_dist,
    t0_check := inBoundsQ f.lo_t0_prior_bound f.hi_t0_prior_bound u.t0 }

/-- `mcmc_fitter_bb.lnprior` (src/phitter/mcmc_fit_bb_wRV.py lines 319-548).
In simple mode (uniform H-extinction-modifier prior and uniform teff prior)
the final condition includes `H_ext_mod_check`; in the Gaussian branch the
final condition omits it and Gaussian log-density terms are added for
whichever of the two Gaussian modes is active. -/
def bbLnprior (f : BBFitter P) (θ : List EF) : EF :=
  let u := bbUnpack f (bbLnpriorLayout f.toggles) θ
  let c := bbChecksOf f u
  let H_ext_mod_bound_oneSig := bbOneSig f u.kp_ext
  if f.H_ext_mod_alpha_sig_bound = -1 ∧ f.star1_teff_sig_bound = false then
    if c.Kp_ext_check && c.H_ext_mod_check && c.inc_check && c.period_check &&
       c.rv_sys_check && c.ecc_check && c.dist_check && c.t0_check &&
       c.star1_checks && c.star2_checks
    then .fin 0 else .ninf
  else
    if c.Kp_ext_check && c.inc_check && c.period_check && c.rv_sys_check &&
       c.ecc_check && c.dist_check && c.t0_check &&
       c.star1_checks && c.star2_checks
    then
      let log_prior := EF.fin 0
      let log_prior :=
        if f.H_ext_mod_alpha_sig_bound ≠ -1 then
          let log_prior_add :=
            nplogEF f (EF.div (.fin 1) (EF.mul (.fin f.sqrt2pi) H_ext_mod_bound_oneSig))
          let log_prior_add :=
            EF.add log_prior_add
              (EF.div (EF.mul (.fin (-(1 : ℚ)/2)) (EF.sq u.h_ext_mod))
                (EF.sq H_ext_mod_bound_oneSig))
          EF.add log_prior log_prior_add
        else log_prior
      let log_prior :=
        if f.star1_teff_sig_bound then
          let log_prior_add :=
            nplogEF f (EF.div (.fin 1) (EF.mul (.fin f.sqrt2pi) (.fin f.star1_teff_bound_sigma)))
          let log_prior_add :=
            EF.add log_prior_add
              (EF.div
                (EF.mul (.fin (-(1 : ℚ)/2)) (EF.sq (EF.sub u.star1_teff (.fin f.star1_teff_bound_mu))))
                (EF.sq (.fin f.star1_teff_bound_sigma)))
          EF.add log_prior log_prior_add
        else log_prior
      log_prior
    else .ninf

/-- The `err_out` failure 4-tuple of `calculate_model_obs`. -/
def bbErr4 : List EF × List EF × List EF × List EF :=
  ([EF.fin (-1)], [EF.fin (-1)], [EF.fin (-1)], [EF.fin (-1)])

/-- `mcmc_fitter_bb.calculate_model_obs` (src/phitter/mcmc_fit_bb_wRV.py
lines 551-701).  Note the sentinel check after the binary model call
inspects only the two magnitude arrays, not the RV arrays. -/
def bbCalcModelObs (f : BBFitter P) (θ : List EF) :
    List EF × List EF × List EF × List EF :=
  let u := bbUnpack f (bbCalcModelObsLayout f.toggles) θ
  let binary_params := (u.binary_period, u.binary_ecc, u.binary_inc, u.t0)
  let Kp_ext_adj := EF.sub u.kp_ext (.fin f.filts_ext_kp)
  let H_ext_adj :=
    EF.add (EF.sub (EF.mul u.kp_ext (.fin f.kpH_pow_mid)) (.fin f.filts_ext_h)) u.h_ext_mod
  let dist_mod_mag_adj :=
    EF.mul (.fin 5) (nplog10EF f (EF.div u.binary_dist (.fin f.dist)))
  let star1_cs := f.calc_stellar_params u.star1_mass u.star1_rad u.star1_teff
  let star2_cs := f.calc_stellar_params u.star2_mass u.star2_rad u.star2_teff
  let lc_calc_out :=
    f.binary_star_lc star1_cs.2 star2_cs.2 binary_params
      (bbObsTimes f) f.use_blackbody_atm f.model_compact f.irrad_frac_refl
      f.model_numTriangles
  if sentinelHead lc_calc_out.1.1 || sentinelHead lc_calc_out.1.2 then bbErr4 else
  let bind :=
    f.dist_ext_mag_calc (lc_calc_out.1.1, lc_calc_out.1.2) f.dist
      (f.filts_ext_kp, f.filts_ext_h)
  let bin_Kp := bind.1.map (fun x => EF.add x Kp_ext_adj)
  let bin_H := bind.2.map (fun x => EF.add x H_ext_adj)
  let bin_Kp := bin_Kp.map (fun x => EF.add x dist_mod_mag_adj)
  let bin_H := bin_H.map (fun x => EF.add x dist_mod_mag_adj)
  let bin_RVs_pri := lc_calc_out.2.1.map (fun x => EF.add x u.binary_rv_sys)
  let bin_RVs_sec := lc_calc_out.2.2.map (fun x => EF.add x u.binary_rv_sys)
  (bin_Kp, bin_H, bin_RVs_pri, bin_RVs_sec)

/-- The phase-sort index list `lnlike` applies to BOTH RV roles: the sort
permutation of the one period-fold of the shared unique RV time grid
(src lines 788-799 unpack the same `rv_phase_out` into the primary and the
secondary index variables). -/
def bbRvIndsUsed (f : BBFitter P) (θ : List EF) : List ℕ :=
  let u := bbUnpack f (bbLnlikeLayout f.toggles) θ
  (foldSpec (bbRvTimes f) u.binary_period u.t0).2.1

/-- Body of `mcmc_fitter_bb.lnlike` (src/phitter/mcmc_fit_bb_wRV.py lines
704-846) with the two RV index lists abstracted as parameters (the source
passes the same list twice); the boolean records whether the chi-square sums
were computed.  The `len(pri_filt) > 0` / `len(sec_filt) > 0` guards of the
source are always true (`np.where` returns a 1-tuple, whose len is 1), so
both RV sums are unconditional. -/
def bbLnlikeCore (f : BBFitter P) (θ : List EF) (rv_pri_inds rv_sec_inds : List ℕ) :
    EF × Bool :=
  let u := bbUnpack f (bbLnlikeLayout f.toggles) θ
  let out := bbCalcModelObs f θ
  let bin_Kp := out.1
  let bin_H := out.2.1
  let model_RVs_pri := out.2.2.1
  let model_RVs_sec := out.2.2.2
  if sentinelHead bin_Kp || sentinelHead bin_H then (.ninf, false) else
  let kp_inds := (foldSpec (bbKpTimes f) u.binary_period u.t0).2.1
  let h_inds := (foldSpec (bbHTimes f) u.binary_period u.t0).2.1
  let ll :=
    chi2Sum (gatherEF (bbKpObsMags f) kp_inds) bin_Kp
      (gatherEF (bbKpObsMagErrors f) kp_inds)
  let ll :=
    EF.add ll
      (chi2Sum (gatherEF (bbHObsMags f) h_inds) bin_H
        (gatherEF (bbHObsMagErrors f) h_inds))
  let obs_rv_pri := gatherEF (bbObsRvPri f) rv_pri_inds
  let obs_rv_pri_errors := gatherEF (bbObsRvPriErrors f) rv_pri_inds
  let nan_filt_pri := nanFilt obs_rv_pri
  let ll :=
    EF.add ll
      (chi2Sum (gatherEF obs_rv_pri nan_filt_pri)
        (gatherEF model_RVs_pri nan_filt_pri)
        (gatherEF obs_rv_pri_errors nan_filt_pri))
  let obs_rv_sec := gatherEF (bbObsRvSec f) rv_sec_inds
  let obs_rv_sec_errors := gatherEF (bbObsRvSecErrors f) rv_sec_inds
  let nan_filt_sec := nanFilt obs_rv_sec
  let ll :=
    EF.add ll
      (chi2Sum (gatherEF obs_rv_sec nan_filt_sec)
        (gatherEF model_RVs_sec nan_filt_sec)
        (gatherEF obs_rv_sec_errors nan_filt_sec))
  (EF.mul (.fin (-(1 : ℚ)/2)) ll, true)

/-- `mcmc_fitter_bb.lnlike`, instrumented: both RV roles use the one shared
index list `bbRvIndsUsed`. -/
def bbLnlikeInstr (f : BBFitter P) (θ : List EF) : EF × Bool :=
  bbLnlikeCore f θ (bbRvIndsUsed f θ) (bbRvIndsUsed f θ)

/-- `mcmc_fitter_bb.lnlike`: the returned value. -/
def bbLnlike (f : BBFitter P) (θ : List EF) : EF := (bbLnlikeInstr f θ).1

/-- The reading of the spec in which each RV role is paired through the
phase-sort of its OWN observation times ("separate index sets"): same body
as `lnlike` but with per-role index lists.  This is the claimed behaviour,
for comparison against `bbLnlike`. -/
def bbLnlikeSepRoles (f : BBFitter P) (θ : List EF) : EF :=
  let u := bbUnpack f (bbLnlikeLayout f.toggles) θ
  (bbLnlikeCore f θ
    (foldSpec (bbRvPriTimes f) u.binary_period u.t0).2.1
    (foldSpec (bbRvSecTimes f) u.binary_period u.t0).2.1).1

/-- The reading of the spec in which NaN observations are excluded from
every band and role (the claim of section 4.6): same structure as `lnlike`
but every chi-square sum is the NaN-filtered `specRoleChi2`.  For
comparison against `bbLnlike`. -/
def bbLnlikeClaimNanAll (f : BBFitter P) (θ : List EF) : EF :=
  let u := bbUnpack f (bbLnlikeLayout f.toggles) θ
  let out := bbCalcModelObs f θ
  let bin_Kp := out.1
  let bin_H := out.2.1
  let model_RVs_pri := out.2.2.1
  let model_RVs_sec := out.2.2.2
  if sentinelHead bin_Kp || sentinelHead bin_H then .ninf else
  let kp_inds := (foldSpec (bbKpTimes f) u.binary_period u.t0).2.1
  let h_inds := (foldSpec (bbHTimes f) u.binary_period u.t0).2.1
  let rv_inds := bbRvIndsUsed f θ
  let ll :=
    specRoleChi2 (gatherEF (bbKpObsMags f) kp_inds) bin_Kp
      (gatherEF (bbKpObsMagErrors f) kp_inds)
  let ll :=
    EF.add ll
      (specRoleChi2 (gatherEF (bbHObsMags f) h_inds) bin_H
        (gatherEF (bbHObsMagErrors f) h_inds))
  let ll :=
    EF.add ll
      (specRoleChi2 (gatherEF (bbObsRvPri f) rv_inds) model_RVs_pri
        (gatherEF (bbObsRvPriErrors f) rv_inds))
  let ll :=
    EF.add ll
      (specRoleChi2 (gatherEF (bbObsRvSec f) rv_inds) model_RVs_sec
        (gatherEF (bbObsRvSecErrors f) rv_inds))
  EF.mul (.fin (-(1 : ℚ)/2)) ll

/-- `mcmc_fitter_bb.lnprob` (src/phitter/mcmc_fit_bb_wRV.py lines 849-860),
instrumented with a flag recording whether `lnlike` (and hence the forward
model) was invoked.  Unlike the rad-interp variant, this variant also
checks the likelihood for finiteness. -/
def bbLnprobInstr (f : BBFitter P) (θ : List EF) : EF × Bool :=
  let lp := bbLnprior f θ
  if !lp.isfinite then (.ninf, false)
  else
    let ll := bbLnlike f θ
    if !ll.isfinite then (.ninf, true)
    else (EF.add lp ll, true)

/-- `mcmc_fitter_bb.lnprob`: the returned value. -/
def bbLnprob (f : BBFitter P) (θ : List EF) : EF := (bbLnprobInstr f θ).1

/-- `mcmc_fitter_bb.set_dist_prior_bounds` (src lines 310-312). -/
def set_dist_prior_bounds (f : BBFitter P) (lo_bound hi_bound : ℚ) : BBFitter P :=
  { f with lo_dist_prior_bound := lo_bound, hi_dist_prior_bound := hi_bound }

/-- `mcmc_fitter_bb.make_bb_params` (src lines 166-205): stores `Ks_ext` and
the distance, sets `default_dist`, REVISES the distance prior bounds to
`[0.8*dist, 1.2*dist]`, and recomputes the per-filter extinctions from
`Ks_ext` (the filter-list bookkeeping and the external
`blackbody_params.bb_stellar_params` construction carry no further state
used by the claims). -/
def make_bb_params (f : BBFitter P) (Ks_ext dist : ℚ) : BBFitter P :=
  { f with Ks_ext := Ks_ext,
           dist := dist,
           default_dist := dist,
           lo_dist_prior_bound := (8/10 : ℚ) * dist,
           hi_dist_prior_bound := (12/10 : ℚ) * dist,
           filts_ext_kp := Ks_ext * f.ks_kp_pow,
           filts_ext_h := Ks_ext * f.ks_h_pow }

/-! ## Concrete fitter configurations used to evaluate the theorems -/

/-- A small concrete rad-interp fitter with benign collaborators: the model
runs succeed with constant magnitudes, the correction collaborators are
identities.  Bounds follow the class defaults except `t0` is bounded in
`[0,1]` to keep the example timestamps small. -/
def radBase : RadFitter Unit :=
  { model_eccentricity := true
    lo_Kp_ext_prior_bound := 2
    hi_Kp_ext_prior_bound := 4
    lo_H_ext_mod_prior_bound := -2
    hi_H_ext_mod_prior_bound := 2
    lo_inc_prior_bound := 0
    hi_inc_prior_bound := 180
    lo_period_prior_bound := 79
    hi_period_prior_bound := 81
    lo_ecc_prior_bound := -(1/10)
    hi_ecc_prior_bound := 1/10
    lo_t0_prior_bound := 0
    hi_t0_prior_bound := 1
    iso_rad_min := 1
    iso_rad_max := 100
    Kp_ext := 3
    H_ext := 6
    kp_h_ext_pow := 2
    use_blackbody_atm := false
    model_numTriangles := 1500
    dist := 8000
    Kp_observation_times := [0]
    H_observation_times := [0]
    kp_obs_mags := [.fin 11]
    kp_obs_mag_errors := [.fin 1]
    h_obs_mags := [.fin 12]
    h_obs_mag_errors := [.fin 1]
    rad_interp := fun _ => (⟨.fin 1, .fin 1, .fin 1, .fin 1, .fin 1, .fin 10, .fin 10⟩, ())
    single_star_lc := fun _ _ _ => ([.fin 10], [.fin 10])
    dist_ext_mag_calc := fun mags _ _ _ => mags
    binary_star_lc := fun _ _ _ _ _ _ => ([.fin 12], [.fin 12])
    flux_adj := fun _ _ _ _ b => b }

/-- An in-bounds theta for `radBase`. -/
def radThetaA : List EF :=
  [.fin 3, .fin 0, .fin 5, .fin 4, .fin 90, .fin 80, .fin 0, .fin 0]

/-- `radBase` with eccentricity NOT modelled and an eccentricity prior bound
that excludes the fixed value `0.` the non-eccentricity branch leaves in
place. -/
def radFitEccB : RadFitter Unit :=
  { radBase with model_eccentricity := false,
                 lo_ecc_prior_bound := 1/2, hi_ecc_prior_bound := 7/10 }

/-- A 7-slot theta for `radFitEccB`, every free component in bounds. -/
def radThetaE : List EF :=
  [.fin 3, .fin 0, .fin 5, .fin 4, .fin 90, .fin 80, .fin 0]

/-- `radBase` whose single-star model collaborator signals the `-1.` failure
sentinel. -/
def radFitSent : RadFitter Unit :=
  { radBase with single_star_lc := fun _ _ _ => ([.fin (-1)], [.fin (-1)]) }

/-- `radBase` with a NaN Kp observation. -/
def radFitNaN : RadFitter Unit :=
  { radBase with kp_obs_mags := [.nan] }

/-- A small concrete blackbody/RV fitter: every `model_*` toggle off (theta
is `[Kp_ext, inc, period, rv_sys, t0]`), uniform prior modes, benign
collaborators, one Kp observation and one RV observation of each role, all
at time 0. -/
def bbBase : BBFitter Unit :=
  { toggles :=
      { model_H_ext_mod := false
        model_star1_mass := false
        model_star1_rad := false
        model_star1_teff := false
        model_star2_mass := false
        model_star2_rad := false
        model_star2_teff := false
        model_eccentricity := false
        model_distance := false }
    star1_mass_larger := false
    star1_rad_larger := false
    star1_teff_larger := false
    star2_mass_larger := false
    star2_rad_larger := false
    star2_teff_larger := false
    default_H_ext_mod := 0
    default_ecc := 0
    default_dist := 8000
    default_star1_mass := 10
    default_star1_rad := 10
    default_star1_teff := 8000
    default_star2_mass := 10
    default_star2_rad := 10
    default_star2_teff := 8000
    lo_Kp_ext_prior_bound := 2
    hi_Kp_ext_prior_bound := 4
    lo_H_ext_mod_prior_bound := -2
    hi_H_ext_mod_prior_bound := 2
    H_ext_mod_alpha_sig_bound := -1
    lo_star1_mass_prior_bound := 1/10
    hi_star1_mass_prior_bound := 20
    lo_star1_rad_prior_bound := 1/10
    hi_star1_rad_prior_bound := 100
    lo_star1_teff_prior_bound := 5000
    hi_star1_teff_prior_bound := 50000
    star1_teff_sig_bound := false
    star1_teff_bound_mu := 10000
    star1_teff_bound_sigma := 1000
    lo_star2_mass_prior_bound := 1/10
    hi_star2_mass_prior_bound := 20
    lo_star2_rad_prior_bound := 1/10
    hi_star2_rad_prior_bound := 100
    lo_star2_teff_prior_bound := 5000
    hi_star2_teff_prior_bound := 50000
    lo_inc_prior_bound := 0
    hi_inc_prior_bound := 180
    lo_period_prior_bound := 79
    hi_period_prior_bound := 81
    lo_rv_sys_prior_bound := -500
    hi_rv_sys_prior_bound := 500
    lo_ecc_prior_bound := -(1/10)
    hi_ecc_prior_bound := 1/10
    lo_dist_prior_bound := 7600
    hi_dist_prior_bound := 8200
    lo_t0_prior_bound := 0
    hi_t0_prior_bound := 1
    kpH_pow_mid := 2
    kpH_pow_hi := 3
    kpH_pow_lo := 3/2
    ks_kp_pow := 1
    ks_h_pow := 2
    sqrt2pi := 5/2
    nplog := fun _ => 0
    nplog10 := fun _ => 0
    Ks_ext := 3
    dist := 8000
    filts_ext_kp := 3
    filts_ext_h := 6
    use_blackbody_atm := true
    model_numTriangles := 1500
    irrad_frac_refl := 6/10
    model_compact := true
    obs_filts := [.kp, .rv_pri, .rv_sec]
    obs_times := [0, 0, 0]
    obs := [.fin 11, .fin 0, .fin 0]
    obs_errors := [.fin 1, .fin 1, .fin 1]
    calc_stellar_params := fun _ _ _ =>
      (⟨.fin 1, .fin 1, .fin 1, .fin 1, .fin 1, .fin 1, .fin 1, .fin 1, .fin 1, .fin 1⟩, ())
    binary_star_lc := fun _ _ _ _ _ _ _ _ => (([.fin 12], [.fin 12]), [.fin 0], [.fin 0])
    dist_ext_mag_calc := fun mags _ _ => mags }

/-- An in-bounds 5-slot theta for `bbBase`. -/
def bbThetaA : List EF := [.fin 3, .fin 90, .fin 80, .fin 0, .fin 0]

/-- `bbBase` with both Gaussian prior modes active and the modifier and
star-1 temperature modelled (theta is
`[Kp_ext, H_ext_mod, star1_teff, inc, period, rv_sys, t0]`). -/
def bbFitGauss : BBFitter Unit :=
  { bbBase with
      toggles := { bbBase.toggles with model_H_ext_mod := true, model_star1_teff := true }
      H_ext_mod_alpha_sig_bound := 1
      star1_teff_sig_bound := true }

/-- An in-bounds 7-slot theta for `bbFitGauss`. -/
def bbThetaG : List EF :=
  [.fin 3, .fin 0, .fin 10000, .fin 90, .fin 80, .fin 0, .fin 0]

/-- The mixed prior-mode configuration: uniform H-extinction-modifier mode
(`H_ext_mod_alpha_sig_bound = -1.0`) but Gaussian star-1 temperature mode,
with the modifier and the temperature modelled. -/
def bbFitMixed : BBFitter Unit :=
  { bbBase with
      toggles := { bbBase.toggles with model_H_ext_mod := true, model_star1_teff := true }
      star1_teff_sig_bound := true }

/-- A 7-slot theta for `bbFitMixed` whose `H_ext_mod` component (slot 1,
value 100) is strictly outside its configured bound `[-2, 2]`, all other
components in bounds. -/
def bbThetaM : List EF :=
  [.fin 3, .fin 100, .fin 10000, .fin 90, .fin 80, .fin 0, .fin 0]

/-- `bbBase` whose binary model collaborator signals the `-1.` failure
sentinel in every returned array. -/
def bbFitSent : BBFitter Unit :=
  { bbBase with
      binary_star_lc := fun _ _ _ _ _ _ _ _ =>
        (([.fin (-1)], [.fin (-1)]), [.fin (-1)], [.fin (-1)]) }

/-- `bbBase` whose binary model collaborator returns healthy magnitude
arrays but the `-1.` failure sentinel in both RV arrays. -/
def bbFitRvSent : BBFitter Unit :=
  { bbBase with
      binary_star_lc := fun _ _ _ _ _ _ _ _ =>
        (([.fin 12], [.fin 12]), [.fin (-1)], [.fin (-1)]) }

/-- A theta for `bbFitRvSent` with a nonzero systemic RV (100 km/s). -/
def bbThetaR : List EF := [.fin 3, .fin 90, .fin 80, .fin 100, .fin 0]

/-- `bbBase` with a NaN Kp observation. -/
def bbFitNaN : BBFitter Unit :=
  { bbBase with obs := [.nan, .fin 0, .fin 0] }

/-- A fitter whose primary and secondary RV observations are stored
time-descending (times `[5, 1]` for each role), so that role-wise
phase-sorting would reorder them; two-point RV model arrays distinguish the
orderings. -/
def bbFitC9 : BBFitter Unit :=
  { bbBase with
      obs_filts := [.rv_pri, .rv_pri, .rv_sec, .rv_sec]
      obs_times := [5, 1, 5, 1]
      obs := [.fin 1, .fin 2, .fin 3, .fin 4]
      obs_errors := [.fin 1, .fin 1, .fin 1, .fin 1]
      binary_star_lc := fun _ _ _ _ _ _ _ _ =>
        (([.fin 12], [.fin 12]), [.fin 0, .fin 10], [.fin 0, .fin 10]) }

/-- A theta for `radBase` with its Kp extinction (100) strictly above its
bound. -/
def radThetaBad : List EF :=
  [.fin 100, .fin 0, .fin 5, .fin 4, .fin 90, .fin 80, .fin 0, .fin 0]

/-- A theta for `radBase` with `star1_rad < star2_rad` (4 < 5). -/
def radThetaSwap : List EF :=
  [.fin 3, .fin 0, .fin 4, .fin 5, .fin 90, .fin 80, .fin 0, .fin 0]

/-- A theta for `bbBase` with its Kp extinction (100) strictly above its
bound. -/
def bbThetaBad : List EF := [.fin 100, .fin 90, .fin 80, .fin 0, .fin 0]

/-- `radBase` over a boolean lcfit payload that tags star 2, whose
single-star collaborator fails exactly on star 2's payload. -/
def radFitS2 : RadFitter Bool :=
  { model_eccentricity := radBase.model_eccentricity
    lo_Kp_ext_prior_bound := radBase.lo_Kp_ext_prior_bound
    hi_Kp_ext_prior_bound := radBase.hi_Kp_ext_prior_bound
    lo_H_ext_mod_prior_bound := radBase.lo_H_ext_mod_prior_bound
    hi_H_ext_mod_prior_bound := radBase.hi_H_ext_mod_prior_bound
    lo_inc_prior_bound := radBase.lo_inc_prior_bound
    hi_inc_prior_bound := radBase.hi_inc_prior_bound
    lo_period_prior_bound := radBase.lo_period_prior_bound
    hi_period_prior_bound := radBase.hi_period_prior_bound
    lo_ecc_prior_bound := radBase.lo_ecc_prior_bound
    hi_ecc_prior_bound := radBase.hi_ecc_prior_bound
    lo_t0_prior_bound := radBase.lo_t0_prior_bound
    hi_t0_prior_bound := radBase.hi_t0_prior_bound
    iso_rad_min := radBase.iso_rad_min
    iso_rad_max := radBase.iso_rad_max
    Kp_ext := radBase.Kp_ext
    H_ext := radBase.H_ext
    kp_h_ext_pow := radBase.kp_h_ext_pow
    use_blackbody_atm := radBase.use_blackbody_atm
    model_numTriangles := radBase.model_numTriangles
    dist := radBase.dist
    Kp_observation_times := radBase.Kp_observation_times
    H_observation_times := radBase.H_observation_times
    kp_obs_mags := radBase.kp_obs_mags
    kp_obs_mag_errors := radBase.kp_obs_mag_errors
    h_obs_mags := radBase.h_obs_mags
    h_obs_mag_errors := radBase.h_obs_mag_errors
    rad_interp := fun r =>
      (⟨.fin 1, .fin 1, .fin 1, .fin 1, .fin 1, .fin 10, .fin 10⟩, EF.feq r (.fin 4))
    single_star_lc := fun p _ _ =>
      if p then ([.fin (-1)], [.fin (-1)]) else ([.fin 10], [.fin 10])
    dist_ext_mag_calc := fun mags _ _ _ => mags
    binary_star_lc := fun _ _ _ _ _ _ => ([.fin 12], [.fin 12])
    flux_adj := fun _ _ _ _ b => b }

/-- `radBase` whose binary model collaborator signals the sentinel. -/
def radFitBinSent : RadFitter Unit :=
  { radBase with binary_star_lc := fun _ _ _ _ _ _ => ([.fin (-1)], [.fin (-1)]) }

/-! ## Claim-side predicates (the spec's phrasing, for the prior claims) -/

/-- Every component the rad-interp prior consumes — free components of theta
and, in non-eccentricity mode, the fixed `0.` eccentricity — lies within its
configured bound, and the radius ordering and isochrone-range checks pass. -/
def radConsumedInBounds (f : RadFitter P) (θ : List EF) : Prop :=
  let u := unpackRad f.model_eccentricity θ
  inBoundsQ f.lo_Kp_ext_prior_bound f.hi_Kp_ext_prior_bound u.Kp_ext = true ∧
  inBoundsQ f.lo_H_ext_mod_prior_bound f.hi_H_ext_mod_prior_bound u.H_ext_mod = true ∧
  inBoundsQ f.lo_inc_prior_bound f.hi_inc_prior_bound u.binary_inc = true ∧
  inBoundsQ f.lo_period_prior_bound f.hi_period_prior_bound u.binary_period = true ∧
  inBoundsQ f.lo_ecc_prior_bound f.hi_ecc_prior_bound u.binary_ecc = true ∧
  inBoundsQ f.lo_t0_prior_bound f.hi_t0_prior_bound u.t0 = true ∧
  EF.le u.star2_rad u.star1_rad = true ∧
  inBoundsQ f.iso_rad_min f.iso_rad_max u.star1_rad = true ∧
  inBoundsQ f.iso_rad_min f.iso_rad_max u.star2_rad = true

/-- Every FREE component of the rad-interp theta lies within its configured
bound and the radius checks pass (the claim's hypothesis as stated: it says
nothing about fixed-at-default components). -/
def radFreeInBounds (f : RadFitter P) (θ : List EF) : Prop :=
  let u := unpackRad f.model_eccentricity θ
  inBoundsQ f.lo_Kp_ext_prior_bound f.hi_Kp_ext_prior_bound u.Kp_ext = true ∧
  inBoundsQ f.lo_H_ext_mod_prior_bound f.hi_H_ext_mod_prior_bound u.H_ext_mod = true ∧
  inBoundsQ f.lo_inc_prior_bound f.hi_inc_prior_bound u.binary_inc = true ∧
  inBoundsQ f.lo_period_prior_bound f.hi_period_prior_bound u.binary_period = true ∧
  (f.model_eccentricity = true →
    inBoundsQ f.lo_ecc_prior_bound f.hi_ecc_prior_bound u.binary_ecc = true) ∧
  inBoundsQ f.lo_t0_prior_bound f.hi_t0_prior_bound u.t0 = true ∧
  EF.le u.star2_rad u.star1_rad = true ∧
  inBoundsQ f.iso_rad_min f.iso_rad_max u.star1_rad = true ∧
  inBoundsQ f.iso_rad_min f.iso_rad_max u.star2_rad = true

/-- Some free component of the rad-interp theta with a configured prior
bound lies strictly outside it. -/
def radSomeFreeOut (f : RadFitter P) (θ : List EF) : Prop :=
  let u := unpackRad f.model_eccentricity θ
  strictOut f.lo_Kp_ext_prior_bound f.hi_Kp_ext_prior_bound u.Kp_ext = true ∨
  strictOut f.lo_H_ext_mod_prior_bound f.hi_H_ext_mod_prior_bound u.H_ext_mod = true ∨
  strictOut f.lo_inc_prior_bound f.hi_inc_prior_bound u.binary_inc = true ∨
  strictOut f.lo_period_prior_bound f.hi_period_prior_bound u.binary_period = true ∨
  (f.model_eccentricity = true ∧
    strictOut f.lo_ecc_prior_bound f.hi_ecc_prior_bound u.binary_ecc = true) ∨
  strictOut f.lo_t0_prior_bound f.hi_t0_prior_bound u.t0 = true

/-- Every component the blackbody prior consumes (free or fixed-at-default)
lies within its configured bound, and every active ordering constraint
holds. -/
def bbConsumedInBounds (f : BBFitter P) (θ : List EF) : Prop :=
  let u := bbUnpack f (bbLnpriorLayout f.toggles) θ
  inBoundsQ f.lo_Kp_ext_prior_bound f.hi_Kp_ext_prior_bound u.kp_ext = true ∧
  inBoundsQ f.lo_H_ext_mod_prior_bound f.hi_H_ext_mod_prior_bound u.h_ext_mod = true ∧
  inBoundsQ f.lo_star1_mass_prior_bound f.hi_star1_mass_prior_bound u.star1_mass = true ∧
  inBoundsQ f.lo_star1_rad_prior_bound f.hi_star1_rad_prior_bound u.star1_rad = true ∧
  inBoundsQ f.lo_star1_teff_prior_bound f.hi_star1_teff_prior_bound u.star1_teff = true ∧
  inBoundsQ f.lo_star2_mass_prior_bound f.hi_star2_mass_prior_bound u.star2_mass = true ∧
  inBoundsQ f.lo_star2_rad_prior_bound f.hi_star2_rad_prior_bound u.star2_rad = true ∧
  inBoundsQ f.lo_star2_teff_prior_bound f.hi_star2_teff_prior_bound u.star2_teff = true ∧
  inBoundsQ f.lo_inc_prior_bound f.hi_inc_prior_bound u.binary_inc = true ∧
  inBoundsQ f.lo_period_prior_bound f.hi_period_prior_bound u.binary_period = true ∧
  inBoundsQ f.lo_rv_sys_prior_bound f.hi_rv_sys_prior_bound u.binary_rv_sys = true ∧
  inBoundsQ f.lo_ecc_prior_bound f.hi_ecc_prior_bound u.binary_ecc = true ∧
  inBoundsQ f.lo_dist_prior_bound f.hi_dist_prior_bound u.binary_dist = true ∧
  inBoundsQ f.lo_t0_prior_bound f.hi_t0_prior_bound u.t0 = true ∧
  (f.star1_mass_larger = true → EF.lt u.star2_mass u.star1_mass = true) ∧
  (f.star1_rad_larger = true → EF.lt u.star2_rad u.star1_rad = true) ∧
  (f.star1_teff_larger = true → EF.lt u.star2_teff u.star1_teff = true) ∧
  (f.star2_mass_larger = true → EF.lt u.star1_mass u.star2_mass = true) ∧
  (f.star2_rad_larger = true → EF.lt u.star1_rad u.star2_rad = true) ∧
  (f.star2_teff_larger = true → EF.lt u.star1_teff u.star2_teff = true)

/-- Some free component of the blackbody theta whose uniform bound the
prior ENFORCES lies strictly outside it.  The H-extinction-modifier bound
is enforced only in full simple mode, and the star-1 temperature bound only
when its Gaussian mode is off. -/
def bbSomeEnforcedOut (f : BBFitter P) (θ : List EF) : Prop :=
  let u := bbUnpack f (bbLnpriorLayout f.toggles) θ
  strictOut f.lo_Kp_ext_prior_bound f.hi_Kp_ext_prior_bound u.kp_ext = true ∨
  (f.toggles.model_H_ext_mod = true ∧ f.H_ext_mod_alpha_sig_bound = -1 ∧
    f.star1_teff_sig_bound = false ∧
    strictOut f.lo_H_ext_mod_prior_bound f.hi_H_ext_mod_prior_bound u.h_ext_mod = true) ∨
  (f.toggles.model_star1_mass = true ∧
    strictOut f.lo_star1_mass_prior_bound f.hi_star1_mass_prior_bound u.star1_mass = true) ∨
  (f.toggles.model_star1_rad = true ∧
    strictOut f.lo_star1_rad_prior_bound f.hi_star1_rad_prior_bound u.star1_rad = true) ∨
  (f.toggles.model_star1_teff = true ∧ f.star1_teff_sig_bound = false ∧
    strictOut f.lo_star1_teff_prior_bound f.hi_star1_teff_prior_bound u.star1_teff = true) ∨
  (f.toggles.model_star2_mass = true ∧
    strictOut f.lo_star2_mass_prior_bound f.hi_star2_mass_prior_bound u.star2_mass = true) ∨
  (f.toggles.model_star2_rad = true ∧
    strictOut f.lo_star2_rad_prior_bound f.hi_star2_rad_prior_bound u.star2_rad = true) ∨
  (f.toggles.model_star2_teff = true ∧
    strictOut f.lo_star2_teff_prior_bound f.hi_star2_teff_prior_bound u.star2_teff = true) ∨
  strictOut f.lo_inc_prior_bound f.hi_inc_prior_bound u.binary_inc = true ∨
  strictOut f.lo_period_prior_bound f.hi_period_prior_bound u.binary_period = true ∨
  strictOut f.lo_rv_sys_prior_bound f.hi_rv_sys_prior_bound u.binary_rv_sys = true ∨
  (f.toggles.model_eccentricity = true ∧
    strictOut f.lo_ecc_prior_bound f.hi_ecc_prior_bound u.binary_ecc = true) ∨
  (f.toggles.model_distance = true ∧
    strictOut f.lo_dist_prior_bound f.hi_dist_prior_bound u.binary_dist = true) ∨
  strictOut f.lo_t0_prior_bound f.hi_t0_prior_bound u.t0 = true

/-- The spec's shape for the blackbody likelihood: `-0.5` times the sum of
the per-band chi-squares, with the two RV roles summed over only their
non-NaN observations (`specRoleChi2`).  The photometric bands are NOT
NaN-filtered (see the counterexample); the pairing/index bookkeeping is the
code's. -/
def bbLnlikeSpecForm (f : BBFitter P) (θ : List EF) : EF :=
  let u := bbUnpack f (bbLnlikeLayout f.toggles) θ
  let out := bbCalcModelObs f θ
  let kp_inds := (foldSpec (bbKpTimes f) u.binary_period u.t0).2.1
  let h_inds := (foldSpec (bbHTimes f) u.binary_period u.t0).2.1
  let rv_inds := bbRvIndsUsed f θ
  EF.mul (.fin (-(1 : ℚ)/2))
    (EF.add
      (EF.add
        (EF.add
          (chi2Sum (gatherEF (bbKpObsMags f) kp_inds) out.1
            (gatherEF (bbKpObsMagErrors f) kp_inds))
          (chi2Sum (gatherEF (bbHObsMags f) h_inds) out.2.1
            (gatherEF (bbHObsMagErrors f) h_inds)))
        (specRoleChi2 (gatherEF (bbObsRvPri f) rv_inds) out.2.2.1
          (gatherEF (bbObsRvPriErrors f) rv_inds)))
      (specRoleChi2 (gatherEF (bbObsRvSec f) rv_inds) out.2.2.2
        (gatherEF (bbObsRvSecErrors f) rv_inds)))

/-! ## Helper lemmas -/

/-- A value strictly outside a bound fails the chained bound check. -/
theorem strictOut_inBounds_false {lo hi : ℚ} {x : EF} (h : strictOut lo hi x = true) :
    inBoundsQ lo hi x = false := by
  cases x <;> simp [strictOut, EF.lt, inBoundsQ, EF.le] at h ⊢
  · rename_i q
    rcases h with h | h
    · intro h2; linarith
    · intro h2; linarith

/-- Python `a < b` implies `b >= a` fails (used for the radius ordering). -/
theorem lt_le_false {a b : EF} (h : EF.lt a b = true) : EF.le b a = false := by
  cases a <;> cases b <;> simp [EF.lt, EF.le] at h ⊢
  linarith

/-- Finite extended values are exactly the `fin` values. -/
theorem isfinite_iff {x : EF} : x.isfinite = true ↔ ∃ q, x = .fin q := by
  cases x <;> simp [EF.isfinite]

/-- Addition of finite values is finite. -/
theorem add_fin (a b : ℚ) : EF.add (.fin a) (.fin b) = .fin (a + b) := rfl

/-- Adding negative infinity to a finite value gives negative infinity. -/
theorem add_fin_ninf (a : ℚ) : EF.add (.fin a) .ninf = .ninf := rfl

/-- Adding NaN to a finite value gives NaN. -/
theorem add_fin_nan (a : ℚ) : EF.add (.fin a) .nan = .nan := rfl

/-- A value satisfying a chained bound check is finite. -/
theorem inBounds_fin {lo hi : ℚ} {x : EF} (h : inBoundsQ lo hi x = true) :
    ∃ q, x = EF.fin q := by
  cases x with
  | fin q => exact ⟨q, rfl⟩
  | pinf => simp [inBoundsQ, EF.le] at h
  | ninf => simp [inBoundsQ, EF.le] at h
  | nan => simp [inBoundsQ, EF.le] at h

/-- Fancy indexing returns as many entries as indices. -/
theorem gatherEF_length (l : List EF) (is : List ℕ) :
    (gatherEF l is).length = is.length := by
  simp [gatherEF]

/-- Shifting every index by one and prepending an element leaves a gather
unchanged. -/
theorem gatherEF_map_succ (x : EF) (l : List EF) (is : List ℕ) :
    gatherEF (x :: l) (is.map (· + 1)) = gatherEF l is := by
  induction is with
  | nil => rfl
  | cons i is ih =>
      simp only [gatherEF, List.map_cons] at ih ⊢
      exact congrArg (List.cons _) ih

/-- Gathering the non-NaN positions of the observation list out of all
three lists turns the source's filtered chi-square into the spec's
skip-NaN sum, provided the lists are equally long. -/
theorem chi2Sum_nanFilt (a : List EF) :
    ∀ b c : List EF, b.length = a.length → c.length = a.length →
      chi2Sum (gatherEF a (nanFilt a)) (gatherEF b (nanFilt a)) (gatherEF c (nanFilt a)) =
      specRoleChi2 a b c := by
  induction a with
  | nil => intro b c _ _; rfl
  | cons x xs ih =>
      intro b c hb hc
      cases b with
      | nil => simp at hb
      | cons y ys =>
        cases c with
        | nil => simp at hc
        | cons z zs =>
          simp only [List.length_cons, Nat.succ.injEq] at hb hc
          by_cases hx : x.isNan = true
          · simp only [nanFilt, if_pos hx, specRoleChi2]
            rw [gatherEF_map_succ, gatherEF_map_succ, gatherEF_map_succ]
            exact ih ys zs hb hc
          · have g1 : ∀ (w : EF) (l : List EF),
                gatherEF (w :: l) (0 :: List.map (· + 1) (nanFilt xs)) =
                w :: gatherEF l (nanFilt xs) := by
              intro w l
              show (w :: l).getD 0 EF.nan ::
                  gatherEF (w :: l) (List.map (· + 1) (nanFilt xs)) = _
              rw [gatherEF_map_succ]
              rfl
            simp only [nanFilt, if_neg hx, specRoleChi2]
            rw [g1 x xs, g1 y ys, g1 z zs]
            simp only [chi2Sum]
            exact congrArg _ (ih ys zs hb hc)

/-- A bound check that is only performed when a quantity is modelled. -/
theorem cond_check_true {M b : Bool} (h : M = true → b = true) :
    (if M then b else true) = true := by
  cases M with
  | false => rfl
  | true => simpa using h rfl

/-- A performed bound check that fails. -/
theorem cond_check_false {M b : Bool} (hM : M = true) (hb : b = false) :
    (if M then b else true) = false := by
  subst hM; simpa using hb

/-- The relational (`*_larger`) conjunct preserves a passing check when the
required ordering holds. -/
theorem relational_check_true {L c l : Bool} (hc : c = true) (h : L = true → l = true) :
    (if L then c && l else c) = true := by
  cases L with
  | false => simpa using hc
  | true => simp [hc, h rfl]

/-- The relational conjunct cannot rescue a failing check. -/
theorem relational_check_false {L : Bool} {c : Bool} (l : Bool) (hc : c = false) :
    (if L then c && l else c) = false := by
  cases L <;> simp [hc]

/-- The Gaussian normalization term is finite for positive widths. -/
theorem nplogEF_term {Q : Type} (g : BBFitter Q) {s σ : ℚ} (hs : 0 < s) (hσ : 0 < σ) :
    nplogEF g (EF.div (.fin 1) (EF.mul (.fin s) (.fin σ))) =
    .fin (g.nplog (1 / (s * σ))) := by
  have hsσ : 0 < s * σ := mul_pos hs hσ
  have h1 : EF.mul (EF.fin s) (EF.fin σ) = EF.fin (s * σ) := rfl
  rw [h1]
  simp only [EF.div]
  rw [if_neg hsσ.ne']
  simp only [nplogEF]
  rw [if_pos (by positivity)]

/-- The Gaussian quadratic term is finite for a nonzero width and a finite
center offset. -/
theorem quad_term_fin {σ : ℚ} (hσ : σ ≠ 0) {v : EF} {x : ℚ} (hv : v = .fin x) :
    EF.div (EF.mul (.fin (-(1 : ℚ)/2)) (EF.sq v)) (EF.sq (.fin σ)) =
    .fin ((-(1 : ℚ)/2 * (x * x)) / (σ * σ)) := by
  subst hv
  have h1 : EF.mul (EF.fin (-(1 : ℚ)/2)) (EF.sq (.fin x)) =
      EF.fin (-(1 : ℚ)/2 * (x * x)) := rfl
  have h2 : EF.sq (EF.fin σ) = EF.fin (σ * σ) := rfl
  rw [h1, h2]
  simp only [EF.div]
  rw [if_neg (mul_ne_zero hσ hσ)]

/-! ## The claims -/

/-- C10: `make_bb_params(Ks_ext, dist, filts_list)` overwrites the distance
prior bounds to `0.8*dist` / `1.2*dist` and sets `default_dist = dist`,
discarding bounds previously configured via `set_dist_prior_bounds`;
`set_dist_prior_bounds` takes effect only when called after
`make_bb_params`. -/
theorem make_bb_params_dist_bounds {Q : Type} (f : BBFitter Q) (lo hi ks d : ℚ) :
    (make_bb_params (set_dist_prior_bounds f lo hi) ks d).lo_dist_prior_bound = (8/10 : ℚ) * d ∧
    (make_bb_params (set_dist_prior_bounds f lo hi) ks d).hi_dist_prior_bound = (12/10 : ℚ) * d ∧
    (make_bb_params (set_dist_prior_bounds f lo hi) ks d).default_dist = d ∧
    (set_dist_prior_bounds (make_bb_params f ks d) lo hi).lo_dist_prior_bound = lo ∧
    (set_dist_prior_bounds (make_bb_params f ks d) lo hi).hi_dist_prior_bound = hi :=
  ⟨rfl, rfl, rfl, rfl, rfl⟩

/-- C8: for every configuration of the `model_*` toggles, the theta
traversals of `lnprior`, `calculate_model_obs` and `lnlike` assign the same
slot to each named quantity and consume the same total number of slots. -/
theorem bb_layouts_agree (t : BBToggles) :
    bbLnpriorLayout t = bbCalcModelObsLayout t ∧ bbCalcModelObsLayout t = bbLnlikeLayout t := by
  obtain ⟨a, b, c, d, e, g, h, i, j⟩ := t
  revert a b c d e g h i j
  decide

/-- C4: in the radius-interpolation variant `lnprior` returns `-inf`
whenever `star1_rad < star2_rad` (regardless of every other component), and
whenever either star's radius fails the isochrone-range check
`iso_rad_min <= rad <= iso_rad_max`. -/
theorem rad_lnprior_radius_checks {P : Type} (f : RadFitter P) (θ : List EF)
    (_hlen : θ.length = radThetaLen f) :
    (EF.lt (unpackRad f.model_eccentricity θ).star1_rad
       (unpackRad f.model_eccentricity θ).star2_rad = true → radLnprior f θ = .ninf) ∧
    (inBoundsQ f.iso_rad_min f.iso_rad_max
       (unpackRad f.model_eccentricity θ).star1_rad = false → radLnprior f θ = .ninf) ∧
    (inBoundsQ f.iso_rad_min f.iso_rad_max
       (unpackRad f.model_eccentricity θ).star2_rad = false → radLnprior f θ = .ninf) := by
  refine ⟨fun h => ?_, fun h => ?_, fun h => ?_⟩
  · have h2 := lt_le_false h
    simp [radLnprior, h2]
  · simp [radLnprior, h]
  · simp [radLnprior, h]

/-- Witness for C4: a theta with `star1_rad = 4 < 5 = star2_rad` is
rejected by the concrete fitter. -/
theorem rad_lnprior_radius_checks_wit :
    radThetaSwap.length = radThetaLen radBase ∧
    EF.lt (unpackRad radBase.model_eccentricity radThetaSwap).star1_rad
      (unpackRad radBase.model_eccentricity radThetaSwap).star2_rad = true ∧
    radLnprior radBase radThetaSwap = .ninf :=
  ⟨by with_unfolding_all decide, by with_unfolding_all decide,
   (rad_lnprior_radius_checks radBase radThetaSwap (by with_unfolding_all decide)).1 (by with_unfolding_all decide)⟩

/-- C3: in both variants, when the forward-model output carries the `-1.`
failure sentinel in a magnitude array's first element, `lnlike` returns
`-inf` without computing any chi-square sums (the instrumentation boolean
is false on that path; the embedding is total, so no exception is
modelled or needed). -/
theorem lnlike_sentinel {P Q : Type} (fr : RadFitter P) (θr : List EF)
    (fb : BBFitter Q) (θb : List EF) :
    ((sentinelHead (radCalcModelLc fr θr).1 || sentinelHead (radCalcModelLc fr θr).2) = true →
      radLnlikeInstr fr θr = (.ninf, false)) ∧
    ((sentinelHead (bbCalcModelObs fb θb).1 || sentinelHead (bbCalcModelObs fb θb).2.1) = true →
      bbLnlikeInstr fb θb = (.ninf, false)) := by
  constructor
  · intro h
    simp [radLnlikeInstr, h]
  · intro h
    simp [bbLnlikeInstr, bbLnlikeCore, h]

/-- Witness for C3: fitters whose model collaborators signal the sentinel. -/
theorem lnlike_sentinel_wit :
    (sentinelHead (radCalcModelLc radFitSent radThetaA).1 ||
      sentinelHead (radCalcModelLc radFitSent radThetaA).2) = true ∧
    radLnlikeInstr radFitSent radThetaA = (.ninf, false) ∧
    (sentinelHead (bbCalcModelObs bbFitSent bbThetaA).1 ||
      sentinelHead (bbCalcModelObs bbFitSent bbThetaA).2.1) = true ∧
    bbLnlikeInstr bbFitSent bbThetaA = (.ninf, false) :=
  ⟨by with_unfolding_all decide,
   (lnlike_sentinel radFitSent radThetaA bbFitSent bbThetaA).1 (by with_unfolding_all decide),
   by with_unfolding_all decide,
   (lnlike_sentinel radFitSent radThetaA bbFitSent bbThetaA).2 (by with_unfolding_all decide)⟩

/-- C1 (amended): in both variants, a non-finite prior short-circuits
`lnprob` to `-inf` without invoking `lnlike` (hence without the forward
model).  With a finite prior, the rad-interp variant returns
`lnprior + lnlike` unconditionally, while the blackbody variant returns the
sum only when the likelihood is finite and `-inf` otherwise — which agrees
with the sum when the likelihood is `-inf` but differs when it is NaN (see
the counterexample). -/
theorem lnprob_short_circuit {P Q : Type} (fr : RadFitter P) (θr : List EF)
    (fb : BBFitter Q) (θb : List EF) :
    ((radLnprior fr θr).isfinite = false → radLnprobInstr fr θr = (.ninf, false)) ∧
    ((radLnprior fr θr).isfinite = true →
      radLnprob fr θr = EF.add (radLnprior fr θr) (radLnlike fr θr)) ∧
    ((bbLnprior fb θb).isfinite = false → bbLnprobInstr fb θb = (.ninf, false)) ∧
    ((bbLnprior fb θb).isfinite = true → (bbLnlike fb θb).isfinite = true →
      bbLnprob fb θb = EF.add (bbLnprior fb θb) (bbLnlike fb θb)) ∧
    ((bbLnprior fb θb).isfinite = true → (bbLnlike fb θb).isfinite = false →
      bbLnprob fb θb = .ninf) := by
  refine ⟨fun h => ?_, fun h => ?_, fun h => ?_, fun h h2 => ?_, fun h h2 => ?_⟩
  · simp [radLnprobInstr, h]
  · simp [radLnprob, radLnprobInstr, h]
  · simp [bbLnprobInstr, h]
  · simp [bbLnprob, bbLnprobInstr, h, h2]
  · simp [bbLnprob, bbLnprobInstr, h, h2]

/-- Counterexample to C1 as stated: with a NaN Kp observation the
blackbody likelihood is NaN, and `lnprob` returns `-inf`, which is NOT
`lnprior + lnlike` (that sum is NaN). -/
theorem lnprob_short_circuit_cex :
    (bbLnprior bbFitNaN bbThetaA).isfinite = true ∧
    bbLnprob bbFitNaN bbThetaA = .ninf ∧
    EF.add (bbLnprior bbFitNaN bbThetaA) (bbLnlike bbFitNaN bbThetaA) = .nan ∧
    bbLnprob bbFitNaN bbThetaA ≠
      EF.add (bbLnprior bbFitNaN bbThetaA) (bbLnlike bbFitNaN bbThetaA) := by
  refine ⟨by with_unfolding_all decide, by with_unfolding_all decide, by with_unfolding_all decide, by with_unfolding_all decide⟩

/-- Witness for C1 at concrete inputs: one instance of each arm. -/
theorem lnprob_short_circuit_wit :
    radLnprobInstr radBase radThetaBad = (.ninf, false) ∧
    radLnprob radBase radThetaA =
      EF.add (radLnprior radBase radThetaA) (radLnlike radBase radThetaA) ∧
    bbLnprobInstr bbBase bbThetaBad = (.ninf, false) ∧
    bbLnprob bbBase bbThetaA =
      EF.add (bbLnprior bbBase bbThetaA) (bbLnlike bbBase bbThetaA) ∧
    bbLnprob bbFitNaN bbThetaA = .ninf :=
  ⟨(lnprob_short_circuit radBase radThetaBad bbBase bbThetaA).1 (by with_unfolding_all decide),
   (lnprob_short_circuit radBase radThetaA bbBase bbThetaA).2.1 (by with_unfolding_all decide),
   (lnprob_short_circuit radBase radThetaA bbBase bbThetaBad).2.2.1 (by with_unfolding_all decide),
   (lnprob_short_circuit radBase radThetaA bbBase bbThetaA).2.2.2.1 (by with_unfolding_all decide) (by with_unfolding_all decide),
   (lnprob_short_circuit radBase radThetaA bbFitNaN bbThetaA).2.2.2.2 (by with_unfolding_all decide) (by with_unfolding_all decide)⟩

/-- C6 (amended): with a finite prior and a non-finite likelihood the
blackbody variant's `lnprob` returns `-inf`.  The rad-interp variant has no
such check: its `lnprob` is the plain sum, which is `-inf` when the
likelihood is `-inf` but NaN when the likelihood is NaN (see the
counterexample). -/
theorem lnprob_nonfinite_like {P Q : Type} (fr : RadFitter P) (θr : List EF)
    (fb : BBFitter Q) (θb : List EF) :
    ((bbLnprior fb θb).isfinite = true → (bbLnlike fb θb).isfinite = false →
      bbLnprob fb θb = .ninf) ∧
    ((radLnprior fr θr).isfinite = true → radLnlike fr θr = .ninf →
      radLnprob fr θr = .ninf) ∧
    ((radLnprior fr θr).isfinite = true → radLnlike fr θr = .nan →
      radLnprob fr θr = .nan) := by
  refine ⟨fun h h2 => ?_, fun h h2 => ?_, fun h h2 => ?_⟩
  · simp [bbLnprob, bbLnprobInstr, h, h2]
  · obtain ⟨q, hq⟩ := isfinite_iff.mp h
    simp [radLnprob, radLnprobInstr, hq, h2, EF.add, EF.isfinite]
  · obtain ⟨q, hq⟩ := isfinite_iff.mp h
    simp [radLnprob, radLnprobInstr, hq, h2, EF.add, EF.isfinite]

/-- Counterexample to C6 as stated: in the rad-interp variant a NaN
likelihood (here from a NaN Kp observation) makes `lnprob` return NaN, not
`-inf`, although the prior is finite. -/
theorem lnprob_nonfinite_like_cex :
    (radLnprior radFitNaN radThetaA).isfinite = true ∧
    (radLnlike radFitNaN radThetaA).isfinite = false ∧
    radLnprob radFitNaN radThetaA = .nan ∧
    radLnprob radFitNaN radThetaA ≠ .ninf := by
  refine ⟨by with_unfolding_all decide, by with_unfolding_all decide, by with_unfolding_all decide, by with_unfolding_all decide⟩

/-- Witness for C6 at concrete inputs: one instance of each arm. -/
theorem lnprob_nonfinite_like_wit :
    bbLnprob bbFitNaN bbThetaA = .ninf ∧
    radLnprob radFitSent radThetaA = .ninf ∧
    radLnprob radFitNaN radThetaA = .nan :=
  ⟨(lnprob_nonfinite_like radBase radThetaA bbFitNaN bbThetaA).1 (by with_unfolding_all decide) (by with_unfolding_all decide),
   (lnprob_nonfinite_like radFitSent radThetaA bbBase bbThetaA).2.1 (by with_unfolding_all decide) (by with_unfolding_all decide),
   (lnprob_nonfinite_like radFitNaN radThetaA bbBase bbThetaA).2.2 (by with_unfolding_all decide) (by with_unfolding_all decide)⟩

/-- C7 (amended): the rad-interp adapter checks the two magnitude arrays
after each of its three model calls (single star 1, single star 2, binary)
and returns the failure value with no corrections applied; the blackbody
adapter checks ONLY the magnitude arrays after its binary call — the RV
arrays are never inspected (see the counterexample). -/
theorem model_sentinel_propagation {P Q : Type} (f : RadFitter P) (θ : List EF)
    (g : BBFitter Q) (θb : List EF) :
    ((sentinelHead (f.single_star_lc
        (f.rad_interp (unpackRad f.model_eccentricity θ).star1_rad).2
        f.use_blackbody_atm f.model_numTriangles).1 ||
      sentinelHead (f.single_star_lc
        (f.rad_interp (unpackRad f.model_eccentricity θ).star1_rad).2
        f.use_blackbody_atm f.model_numTriangles).2) = true →
      radCalcModelLc f θ = radErrOut) ∧
    ((sentinelHead (f.single_star_lc
        (f.rad_interp (unpackRad f.model_eccentricity θ).star2_rad).2
        f.use_blackbody_atm f.model_numTriangles).1 ||
      sentinelHead (f.single_star_lc
        (f.rad_interp (unpackRad f.model_eccentricity θ).star2_rad).2
        f.use_blackbody_atm f.model_numTriangles).2) = true →
      radCalcModelLc f θ = radErrOut) ∧
    ((sentinelHead (f.binary_star_lc
        (f.rad_interp (unpackRad f.model_eccentricity θ).star1_rad).2
        (f.rad_interp (unpackRad f.model_eccentricity θ).star2_rad).2
        ((unpackRad f.model_eccentricity θ).binary_period,
         (unpackRad f.model_eccentricity θ).binary_ecc,
         (unpackRad f.model_eccentricity θ).binary_inc,
         (unpackRad f.model_eccentricity θ).t0)
        (f.Kp_observation_times, f.H_observation_times)
        f.use_blackbody_atm f.model_numTriangles).1 ||
      sentinelHead (f.binary_star_lc
        (f.rad_interp (unpackRad f.model_eccentricity θ).star1_rad).2
        (f.rad_interp (unpackRad f.model_eccentricity θ).star2_rad).2
        ((unpackRad f.model_eccentricity θ).binary_period,
         (unpackRad f.model_eccentricity θ).binary_ecc,
         (unpackRad f.model_eccentricity θ).binary_inc,
         (unpackRad f.model_eccentricity θ).t0)
        (f.Kp_observation_times, f.H_observation_times)
        f.use_blackbody_atm f.model_numTriangles).2) = true →
      radCalcModelLc f θ = radErrOut) ∧
    ((sentinelHead (g.binary_star_lc
        (g.calc_stellar_params
          (bbUnpack g (bbCalcModelObsLayout g.toggles) θb).star1_mass
          (bbUnpack g (bbCalcModelObsLayout g.toggles) θb).star1_rad
          (bbUnpack g (bbCalcModelObsLayout g.toggles) θb).star1_teff).2
        (g.calc_stellar_params
          (bbUnpack g (bbCalcModelObsLayout g.toggles) θb).star2_mass
          (bbUnpack g (bbCalcModelObsLayout g.toggles) θb).star2_rad
          (bbUnpack g (bbCalcModelObsLayout g.toggles) θb).star2_teff).2
        ((bbUnpack g (bbCalcModelObsLayout g.toggles) θb).binary_period,
         (bbUnpack g (bbCalcModelObsLayout g.toggles) θb).binary_ecc,
         (bbUnpack g (bbCalcModelObsLayout g.toggles) θb).binary_inc,
         (bbUnpack g (bbCalcModelObsLayout g.toggles) θb).t0)
        (bbObsTimes g) g.use_blackbody_atm g.model_compact g.irrad_frac_refl
        g.model_numTriangles).1.1 ||
      sentinelHead (g.binary_star_lc
        (g.calc_stellar_params
          (bbUnpack g (bbCalcModelObsLayout g.toggles) θb).star1_mass
          (bbUnpack g (bbCalcModelObsLayout g.toggles) θb).star1_rad
          (bbUnpack g (bbCalcModelObsLayout g.toggles) θb).star1_teff).2
        (g.calc_stellar_params
          (bbUnpack g (bbCalcModelObsLayout g.toggles) θb).star2_mass
          (bbUnpack g (bbCalcModelObsLayout g.toggles) θb).star2_rad
          (bbUnpack g (bbCalcModelObsLayout g.toggles) θb).star2_teff).2
        ((bbUnpack g (bbCalcModelObsLayout g.toggles) θb).binary_period,
         (bbUnpack g (bbCalcModelObsLayout g.toggles) θb).binary_ecc,
         (bbUnpack g (bbCalcModelObsLayout g.toggles) θb).binary_inc,
         (bbUnpack g (bbCalcModelObsLayout g.toggles) θb).t0)
        (bbObsTimes g) g.use_blackbody_atm g.model_compact g.irrad_frac_refl
        g.model_numTriangles).1.2) = true →
      bbCalcModelObs g θb = bbErr4) := by
  refine ⟨fun h => ?_, fun h => ?_, fun h => ?_, fun h => ?_⟩
  · simp [radCalcModelLc, h]
  · simp [radCalcModelLc, h]
  · simp [radCalcModelLc, h]
  · simp [bbCalcModelObs, h]

/-- Counterexample to C7 as stated: the blackbody adapter does not check
the RV arrays — with healthy magnitudes but sentinel RVs it applies all
corrections (here the systemic RV of 100 turning the `-1.` sentinel into
`99`) and returns a partial result, not the failure value. -/
theorem model_sentinel_propagation_cex :
    sentinelHead ((bbFitRvSent.binary_star_lc () ()
        ((.fin 80), (.fin 0), (.fin 90), (.fin 0)) (bbObsTimes bbFitRvSent)
        bbFitRvSent.use_blackbody_atm bbFitRvSent.model_compact
        bbFitRvSent.irrad_frac_refl bbFitRvSent.model_numTriangles).2.1) = true ∧
    bbCalcModelObs bbFitRvSent bbThetaR ≠ bbErr4 ∧
    (bbCalcModelObs bbFitRvSent bbThetaR).2.2.1 = [.fin 99] ∧
    (bbCalcModelObs bbFitRvSent bbThetaR).2.2.2 = [.fin 99] := by
  refine ⟨by with_unfolding_all decide, by with_unfolding_all decide, by with_unfolding_all decide, by with_unfolding_all decide⟩

/-- Witness for C7 at concrete inputs: one instance of each arm. -/
theorem model_sentinel_propagation_wit :
    radCalcModelLc radFitSent radThetaA = radErrOut ∧
    radCalcModelLc radFitS2 radThetaA = radErrOut ∧
    radCalcModelLc radFitBinSent radThetaA = radErrOut ∧
    bbCalcModelObs bbFitSent bbThetaA = bbErr4 :=
  ⟨(model_sentinel_propagation radFitSent radThetaA bbBase bbThetaA).1 (by with_unfolding_all decide),
   (model_sentinel_propagation radFitS2 radThetaA bbBase bbThetaA).2.1 (by with_unfolding_all decide),
   (model_sentinel_propagation radFitBinSent radThetaA bbBase bbThetaA).2.2.1 (by with_unfolding_all decide),
   (model_sentinel_propagation radBase radThetaA bbFitSent bbThetaA).2.2.2 (by with_unfolding_all decide)⟩

/-- C9 (amended): the two RV roles share one period-fold of the unique RV
time grid AND share the same phase-sorted index list — `lnlike` assigns the
single fold output to both per-role index variables, while pairing each
role's observations against the model array of its own role.  The shared
index list coincides with per-role folding exactly when each role's own
time list equals the shared grid. -/
theorem rv_shared_fold {Q : Type} (f : BBFitter Q) (θ : List EF) :
    bbRvIndsUsed f θ =
      (foldSpec (bbRvTimes f) (bbUnpack f (bbLnlikeLayout f.toggles) θ).binary_period
        (bbUnpack f (bbLnlikeLayout f.toggles) θ).t0).2.1 ∧
    bbLnlikeInstr f θ = bbLnlikeCore f θ (bbRvIndsUsed f θ) (bbRvIndsUsed f θ) ∧
    (bbRvPriTimes f = bbRvTimes f → bbRvSecTimes f = bbRvTimes f →
      bbLnlike f θ = bbLnlikeSepRoles f θ) := by
  refine ⟨rfl, rfl, fun h1 h2 => ?_⟩
  simp [bbLnlike, bbLnlikeInstr, bbLnlikeSepRoles, bbRvIndsUsed, h1, h2]

/-- Counterexample to C9 as stated: with time-descending per-role RV
observations, the index list the code applies to the secondary role is the
shared grid's permutation `[0,1]`, not the secondary's own phase-sort
`[1,0]`, and the likelihood value differs from the separate-index-set
reading. -/
theorem rv_shared_fold_cex :
    bbRvIndsUsed bbFitC9 bbThetaA = [0, 1] ∧
    (foldSpec (bbRvSecTimes bbFitC9)
      (bbUnpack bbFitC9 (bbLnlikeLayout bbFitC9.toggles) bbThetaA).binary_period
      (bbUnpack bbFitC9 (bbLnlikeLayout bbFitC9.toggles) bbThetaA).t0).2.1 = [1, 0] ∧
    bbRvIndsUsed bbFitC9 bbThetaA ≠
      (foldSpec (bbRvSecTimes bbFitC9)
        (bbUnpack bbFitC9 (bbLnlikeLayout bbFitC9.toggles) bbThetaA).binary_period
        (bbUnpack bbFitC9 (bbLnlikeLayout bbFitC9.toggles) bbThetaA).t0).2.1 ∧
    bbLnlike bbFitC9 bbThetaA = .fin (-55) ∧
    bbLnlikeSepRoles bbFitC9 bbThetaA = .fin (-75) ∧
    bbLnlike bbFitC9 bbThetaA ≠ bbLnlikeSepRoles bbFitC9 bbThetaA := by
  refine ⟨by with_unfolding_all decide, by with_unfolding_all decide, by with_unfolding_all decide, by with_unfolding_all decide, by with_unfolding_all decide, by with_unfolding_all decide⟩

/-- Witness for C9's conditional arm: when both roles' time lists equal the
shared grid, the shared and the per-role pairings agree. -/
theorem rv_shared_fold_wit :
    bbLnlike bbBase bbThetaA = bbLnlikeSepRoles bbBase bbThetaA :=
  (rv_shared_fold bbBase bbThetaA).2.2 (by with_unfolding_all decide) (by with_unfolding_all decide)

/-- C5 (amended): NaN exclusion happens only for the two RV roles of the
blackbody variant: its likelihood equals `-0.5` times the sum of the plain
(unfiltered) Kp and H chi-squares and the NaN-skipping chi-squares of the
primary and secondary RV roles (`bbLnlikeSpecForm`).  Photometric NaN
observations are NOT excluded (see the counterexample), and the rad-interp
variant has no NaN filtering at all. -/
theorem lnlike_nan_exclusion {Q : Type} (f : BBFitter Q) (θ : List EF)
    (hsent : (sentinelHead (bbCalcModelObs f θ).1 ||
              sentinelHead (bbCalcModelObs f θ).2.1) = false)
    (hp : (bbCalcModelObs f θ).2.2.1.length = (bbRvIndsUsed f θ).length)
    (hs : (bbCalcModelObs f θ).2.2.2.length = (bbRvIndsUsed f θ).length) :
    bbLnlike f θ = bbLnlikeSpecForm f θ := by
  have hpri := chi2Sum_nanFilt (gatherEF (bbObsRvPri f) (bbRvIndsUsed f θ))
      ((bbCalcModelObs f θ).2.2.1) (gatherEF (bbObsRvPriErrors f) (bbRvIndsUsed f θ))
      (by rw [hp, gatherEF_length]) (by rw [gatherEF_length, gatherEF_length])
  have hsec := chi2Sum_nanFilt (gatherEF (bbObsRvSec f) (bbRvIndsUsed f θ))
      ((bbCalcModelObs f θ).2.2.2) (gatherEF (bbObsRvSecErrors f) (bbRvIndsUsed f θ))
      (by rw [hs, gatherEF_length]) (by rw [gatherEF_length, gatherEF_length])
  simp only [bbLnlike, bbLnlikeInstr, bbLnlikeCore, bbLnlikeSpecForm, hsent,
    Bool.false_eq_true, if_false, hpri, hsec]

/-- Counterexample to C5 as stated: a NaN Kp observation is not excluded —
the blackbody likelihood is NaN, while the claim's all-role-filtered value
is finite. -/
theorem lnlike_nan_exclusion_cex :
    bbLnlike bbFitNaN bbThetaA = .nan ∧
    bbLnlikeClaimNanAll bbFitNaN bbThetaA = .fin 0 ∧
    bbLnlike bbFitNaN bbThetaA ≠ bbLnlikeClaimNanAll bbFitNaN bbThetaA := by
  refine ⟨by with_unfolding_all decide, by with_unfolding_all decide,
    by with_unfolding_all decide⟩

/-- Witness for C5 at a concrete fitter. -/
theorem lnlike_nan_exclusion_wit :
    bbLnlike bbBase bbThetaA = bbLnlikeSpecForm bbBase bbThetaA :=
  lnlike_nan_exclusion bbBase bbThetaA (by with_unfolding_all decide)
    (by with_unfolding_all decide) (by with_unfolding_all decide)

/-- All of `lnprior`'s boolean checks pass when every consumed component is
within its bound and every active ordering constraint holds. -/
theorem bbChecks_all_true {Q : Type} (f : BBFitter Q) (u : BBTheta)
    (hkp : inBoundsQ f.lo_Kp_ext_prior_bound f.hi_Kp_ext_prior_bound u.kp_ext = true)
    (hh : inBoundsQ f.lo_H_ext_mod_prior_bound f.hi_H_ext_mod_prior_bound u.h_ext_mod = true)
    (h1m : inBoundsQ f.lo_star1_mass_prior_bound f.hi_star1_mass_prior_bound u.star1_mass = true)
    (h1r : inBoundsQ f.lo_star1_rad_prior_bound f.hi_star1_rad_prior_bound u.star1_rad = true)
    (h1t : inBoundsQ f.lo_star1_teff_prior_bound f.hi_star1_teff_prior_bound u.star1_teff = true)
    (h2m : inBoundsQ f.lo_star2_mass_prior_bound f.hi_star2_mass_prior_bound u.star2_mass = true)
    (h2r : inBoundsQ f.lo_star2_rad_prior_bound f.hi_star2_rad_prior_bound u.star2_rad = true)
    (h2t : inBoundsQ f.lo_star2_teff_prior_bound f.hi_star2_teff_prior_bound u.star2_teff = true)
    (hinc : inBoundsQ f.lo_inc_prior_bound f.hi_inc_prior_bound u.binary_inc = true)
    (hper : inBoundsQ f.lo_period_prior_bound f.hi_period_prior_bound u.binary_period = true)
    (hrv : inBoundsQ f.lo_rv_sys_prior_bound f.hi_rv_sys_prior_bound u.binary_rv_sys = true)
    (hecc : inBoundsQ f.lo_ecc_prior_bound f.hi_ecc_prior_bound u.binary_ecc = true)
    (hdist : inBoundsQ f.lo_dist_prior_bound f.hi_dist_prior_bound u.binary_dist = true)
    (ht0 : inBoundsQ f.lo_t0_prior_bound f.hi_t0_prior_bound u.t0 = true)
    (hr1m : f.star1_mass_larger = true → EF.lt u.star2_mass u.star1_mass = true)
    (hr1r : f.star1_rad_larger = true → EF.lt u.star2_rad u.star1_rad = true)
    (hr1t : f.star1_teff_larger = true → EF.lt u.star2_teff u.star1_teff = true)
    (hr2m : f.star2_mass_larger = true → EF.lt u.star1_mass u.star2_mass = true)
    (hr2r : f.star2_rad_larger = true → EF.lt u.star1_rad u.star2_rad = true)
    (hr2t : f.star2_teff_larger = true → EF.lt u.star1_teff u.star2_teff = true) :
    (bbChecksOf f u).Kp_ext_check = true ∧
    (bbChecksOf f u).H_ext_mod_check = true ∧
    (bbChecksOf f u).star1_checks = true ∧
    (bbChecksOf f u).star2_checks = true ∧
    (bbChecksOf f u).inc_check = true ∧
    (bbChecksOf f u).period_check = true ∧
    (bbChecksOf f u).rv_sys_check = true ∧
    (bbChecksOf f u).ecc_check = true ∧
    (bbChecksOf f u).dist_check = true ∧
    (bbChecksOf f u).t0_check = true := by
  refine ⟨?_, ?_, ?_, ?_, ?_, ?_, ?_, ?_, ?_, ?_⟩ <;> simp only [bbChecksOf]
  · exact hkp
  · simp [hh]
  · rw [relational_check_true (by simp [h1m]) hr1m,
        relational_check_true (by simp [h1r]) hr1r,
        relational_check_true (by simp [h1t]) hr1t]
    rfl
  · rw [relational_check_true (by simp [h2m]) hr2m,
        relational_check_true (by simp [h2r]) hr2r,
        relational_check_true (by simp [h2t]) hr2t]
    rfl
  · exact hinc
  · exact hper
  · exact hrv
  · exact hecc
  · exact hdist
  · exact ht0

/-- C2 (amended): when every component the prior consumes (free or
fixed-at-default) is within its configured bound and the ordering/radius
checks pass, `lnprior` returns exactly `0.0` in uniform mode, and a finite
value in the blackbody Gaussian modes (given positive Gaussian widths and a
positive derived one-sigma bound).  A free component strictly outside an
ENFORCED uniform bound forces `-inf`; the H-extinction-modifier bound is
enforced only when `H_ext_mod_alpha_sig_bound = -1.0` AND
`star1_teff_sig_bound` is off, and the star-1 temperature bound only when
its Gaussian mode is off (see the counterexample). -/
theorem lnprior_bounds {P Q : Type} (f : RadFitter P) (θ : List EF)
    (g : BBFitter Q) (θb : List EF) :
    (radConsumedInBounds f θ → radLnprior f θ = .fin 0) ∧
    (radSomeFreeOut f θ → radLnprior f θ = .ninf) ∧
    (g.H_ext_mod_alpha_sig_bound = -1 → g.star1_teff_sig_bound = false →
      bbConsumedInBounds g θb → bbLnprior g θb = .fin 0) ∧
    (¬(g.H_ext_mod_alpha_sig_bound = -1 ∧ g.star1_teff_sig_bound = false) →
      0 < g.sqrt2pi →
      (g.H_ext_mod_alpha_sig_bound ≠ -1 → ∃ c : ℚ, 0 < c ∧
        bbOneSig g (bbUnpack g (bbLnpriorLayout g.toggles) θb).kp_ext = .fin c) →
      (g.star1_teff_sig_bound = true → 0 < g.star1_teff_bound_sigma) →
      bbConsumedInBounds g θb → (bbLnprior g θb).isfinite = true) ∧
    (bbSomeEnforcedOut g θb → bbLnprior g θb = .ninf) := by
  refine ⟨fun h => ?_, fun h => ?_, fun hA hS h => ?_, fun hmode hs hone hσ h => ?_, fun h => ?_⟩
  · simp only [radConsumedInBounds] at h
    obtain ⟨h1, h2, h3, h4, h5, h6, h7, h8, h9⟩ := h
    simp [radLnprior, h1, h2, h3, h4, h5, h6, h7, h8, h9]
  · simp only [radSomeFreeOut] at h
    rcases h with h | h | h | h | ⟨hm, h⟩ | h <;>
      simp [radLnprior, strictOut_inBounds_false h]
  · simp only [bbConsumedInBounds] at h
    obtain ⟨hkp, hh, h1m, h1r, h1t, h2m, h2r, h2t, hinc, hper, hrv, hecc, hdist, ht0,
      hr1m, hr1r, hr1t, hr2m, hr2r, hr2t⟩ := h
    obtain ⟨cK, cH, cS1, cS2, cI, cP, cR, cE, cD, cT⟩ :=
      bbChecks_all_true g (bbUnpack g (bbLnpriorLayout g.toggles) θb)
        hkp hh h1m h1r h1t h2m h2r h2t hinc hper hrv hecc hdist ht0
        hr1m hr1r hr1t hr2m hr2r hr2t
    simp [bbLnprior, hA, hS, cK, cH, cS1, cS2, cI, cP, cR, cE, cD, cT]
  · simp only [bbConsumedInBounds] at h
    obtain ⟨hkp, hh, h1m, h1r, h1t, h2m, h2r, h2t, hinc, hper, hrv, hecc, hdist, ht0,
      hr1m, hr1r, hr1t, hr2m, hr2r, hr2t⟩ := h
    obtain ⟨cK, cH, cS1, cS2, cI, cP, cR, cE, cD, cT⟩ :=
      bbChecks_all_true g (bbUnpack g (bbLnpriorLayout g.toggles) θb)
        hkp hh h1m h1r h1t h2m h2r h2t hinc hper hrv hecc hdist ht0
        hr1m hr1r hr1t hr2m hr2r hr2t
    obtain ⟨hv, hveq⟩ := inBounds_fin hh
    obtain ⟨tv, htveq⟩ := inBounds_fin h1t
    simp only [bbLnprior, if_neg hmode, cK, cS1, cS2, cI, cP, cR, cE, cD, cT,
      Bool.and_self, if_true]
    by_cases hA : g.H_ext_mod_alpha_sig_bound = -1
    · have hS : g.star1_teff_sig_bound = true := by
        rcases Bool.eq_false_or_eq_true g.star1_teff_sig_bound with hb | hb
        · exact hb
        · exact absurd ⟨hA, hb⟩ hmode
      rw [if_pos hS, if_neg (by simp [hA])]
      rw [nplogEF_term g hs (hσ hS), htveq]
      rw [show EF.sub (EF.fin tv) (.fin g.star1_teff_bound_mu) =
        EF.fin (tv + -g.star1_teff_bound_mu) from rfl]
      rw [quad_term_fin (hσ hS).ne' rfl]
      rfl
    · obtain ⟨c, hc, hcoeq⟩ := hone hA
      rw [if_pos hA, hcoeq, hveq]
      rw [nplogEF_term g hs hc]
      rw [quad_term_fin hc.ne' rfl]
      by_cases hS : g.star1_teff_sig_bound = true
      · rw [if_pos hS]
        rw [nplogEF_term g hs (hσ hS), htveq]
        rw [show EF.sub (EF.fin tv) (.fin g.star1_teff_bound_mu) =
          EF.fin (tv + -g.star1_teff_bound_mu) from rfl]
        rw [quad_term_fin (hσ hS).ne' rfl]
        rfl
      · rw [if_neg hS]
        rfl
  · simp only [bbSomeEnforcedOut] at h
    rcases h with h | ⟨hm, hA, hS, h⟩ | ⟨hm, h⟩ | ⟨hm, h⟩ | ⟨hm, hS, h⟩ | ⟨hm, h⟩ |
      ⟨hm, h⟩ | ⟨hm, h⟩ | h | h | h | ⟨hm, h⟩ | ⟨hm, h⟩ | h
    · have hK : (bbChecksOf g (bbUnpack g (bbLnpriorLayout g.toggles) θb)).Kp_ext_check = false := by
        simp only [bbChecksOf]
        exact strictOut_inBounds_false h
      simp [bbLnprior, hK]
    · have hH : (bbChecksOf g (bbUnpack g (bbLnpriorLayout g.toggles) θb)).H_ext_mod_check = false := by
        simp [bbChecksOf, hA, strictOut_inBounds_false h]
      simp [bbLnprior, hA, hS, hH]
    · have hc : (bbChecksOf g (bbUnpack g (bbLnpriorLayout g.toggles) θb)).star1_checks = false := by
        simp [bbChecksOf, hm, strictOut_inBounds_false h]
      simp [bbLnprior, hc]
    · have hc : (bbChecksOf g (bbUnpack g (bbLnpriorLayout g.toggles) θb)).star1_checks = false := by
        simp [bbChecksOf, hm, strictOut_inBounds_false h]
      simp [bbLnprior, hc]
    · have hc : (bbChecksOf g (bbUnpack g (bbLnpriorLayout g.toggles) θb)).star1_checks = false := by
        simp [bbChecksOf, hm, hS, strictOut_inBounds_false h]
      simp [bbLnprior, hc]
    · have hc : (bbChecksOf g (bbUnpack g (bbLnpriorLayout g.toggles) θb)).star2_checks = false := by
        simp [bbChecksOf, hm, strictOut_inBounds_false h]
      simp [bbLnprior, hc]
    · have hc : (bbChecksOf g (bbUnpack g (bbLnpriorLayout g.toggles) θb)).star2_checks = false := by
        simp [bbChecksOf, hm, strictOut_inBounds_false h]
      simp [bbLnprior, hc]
    · have hc : (bbChecksOf g (bbUnpack g (bbLnpriorLayout g.toggles) θb)).star2_checks = false := by
        simp [bbChecksOf, hm, strictOut_inBounds_false h]
      simp [bbLnprior, hc]
    · have hc : (bbChecksOf g (bbUnpack g (bbLnpriorLayout g.toggles) θb)).inc_check = false := by
        simp only [bbChecksOf]
        exact strictOut_inBounds_false h
      simp [bbLnprior, hc]
    · have hc : (bbChecksOf g (bbUnpack g (bbLnpriorLayout g.toggles) θb)).period_check = false := by
        simp only [bbChecksOf]
        exact strictOut_inBounds_false h
      simp [bbLnprior, hc]
    · have hc : (bbChecksOf g (bbUnpack g (bbLnpriorLayout g.toggles) θb)).rv_sys_check = false := by
        simp only [bbChecksOf]
        exact strictOut_inBounds_false h
      simp [bbLnprior, hc]
    · have hc : (bbChecksOf g (bbUnpack g (bbLnpriorLayout g.toggles) θb)).ecc_check = false := by
        simp only [bbChecksOf]
        exact strictOut_inBounds_false h
      simp [bbLnprior, hc]
    · have hc : (bbChecksOf g (bbUnpack g (bbLnpriorLayout g.toggles) θb)).dist_check = false := by
        simp only [bbChecksOf]
        exact strictOut_inBounds_false h
      simp [bbLnprior, hc]
    · have hc : (bbChecksOf g (bbUnpack g (bbLnpriorLayout g.toggles) θb)).t0_check = false := by
        simp only [bbChecksOf]
        exact strictOut_inBounds_false h
      simp [bbLnprior, hc]

/-- Counterexample to C2 as stated, in both directions the claim quantifies
over.  Blackbody, mixed prior modes (`H_ext_mod_alpha_sig_bound = -1.0`,
`star1_teff_sig_bound` on): the free `H_ext_mod` component (value 100) is
strictly outside its configured uniform bound `[-2, 2]`, yet `lnprior`
returns the finite value 0, not `-inf` — the Gaussian-branch final check
omits `H_ext_mod_check`.  Rad-interp with eccentricity not modelled: every
free component is within bounds and the radius checks pass, yet `lnprior`
returns `-inf`, because the fixed default eccentricity `0.` is checked
against the configured bound `[1/2, 7/10]`. -/
theorem lnprior_bounds_cex :
    bbFitMixed.toggles.model_H_ext_mod = true ∧
    strictOut bbFitMixed.lo_H_ext_mod_prior_bound bbFitMixed.hi_H_ext_mod_prior_bound
      (bbUnpack bbFitMixed (bbLnpriorLayout bbFitMixed.toggles) bbThetaM).h_ext_mod = true ∧
    bbLnprior bbFitMixed bbThetaM = .fin 0 ∧
    bbLnprior bbFitMixed bbThetaM ≠ .ninf ∧
    radFreeInBounds radFitEccB radThetaE ∧
    radLnprior radFitEccB radThetaE = .ninf := by
  refine ⟨by with_unfolding_all decide, by with_unfolding_all decide,
    by with_unfolding_all decide, by with_unfolding_all decide,
    ?_, by with_unfolding_all decide⟩
  simp only [radFreeInBounds]
  refine ⟨by with_unfolding_all decide, by with_unfolding_all decide,
    by with_unfolding_all decide, by with_unfolding_all decide,
    fun hm => ?_, by with_unfolding_all decide, by with_unfolding_all decide,
    by with_unfolding_all decide, by with_unfolding_all decide⟩
  exact absurd hm (by with_unfolding_all decide)

/-- Witness for C2 at concrete inputs: one instance of each arm. -/
theorem lnprior_bounds_wit :
    radLnprior radBase radThetaA = .fin 0 ∧
    radLnprior radBase radThetaBad = .ninf ∧
    bbLnprior bbBase bbThetaA = .fin 0 ∧
    (bbLnprior bbFitGauss bbThetaG).isfinite = true ∧
    bbLnprior bbBase bbThetaBad = .ninf :=
  ⟨(lnprior_bounds radBase radThetaA bbBase bbThetaA).1
      (by simp only [radConsumedInBounds]
          refine ⟨?_, ?_, ?_, ?_, ?_, ?_, ?_, ?_, ?_⟩ <;> with_unfolding_all decide),
   (lnprior_bounds radBase radThetaBad bbBase bbThetaA).2.1
      (by simp only [radSomeFreeOut]
          exact Or.inl (by with_unfolding_all decide)),
   (lnprior_bounds radBase radThetaA bbBase bbThetaA).2.2.1
      (by with_unfolding_all decide) (by with_unfolding_all decide)
      (by simp only [bbConsumedInBounds]
          refine ⟨?_, ?_, ?_, ?_, ?_, ?_, ?_, ?_, ?_, ?_, ?_, ?_, ?_, ?_,
            fun hm => absurd hm ?_, fun hm => absurd hm ?_, fun hm => absurd hm ?_,
            fun hm => absurd hm ?_, fun hm => absurd hm ?_, fun hm => absurd hm ?_⟩ <;>
            with_unfolding_all decide),
   (lnprior_bounds radBase radThetaA bbFitGauss bbThetaG).2.2.2.1
      (by with_unfolding_all decide) (by with_unfolding_all decide)
      (fun _ => ⟨3, by norm_num, by with_unfolding_all decide⟩)
      (fun _ => by with_unfolding_all decide)
      (by simp only [bbConsumedInBounds]
          refine ⟨?_, ?_, ?_, ?_, ?_, ?_, ?_, ?_, ?_, ?_, ?_, ?_, ?_, ?_,
            fun hm => absurd hm ?_, fun hm => absurd hm ?_, fun hm => absurd hm ?_,
            fun hm => absurd hm ?_, fun hm => absurd hm ?_, fun hm => absurd hm ?_⟩ <;>
            with_unfolding_all decide),
   (lnprior_bounds radBase radThetaA bbBase bbThetaBad).2.2.2.2
      (by simp only [bbSomeEnforcedOut]
          exact Or.inl (by with_unfolding_all decide))⟩
